import Mathlib

/-!
Formal model of the CopperLicht render-pipeline core: the GPU resource cache and
draw path of `renderer.js` and the scene-graph / frame-scheduler logic of
`flacescene.js`.

Modelling conventions:
* JS numbers are modelled as exact rationals (`Rat`).  Every numeric operation the
  modelled code performs on them (copy, add, multiply, divide, compare) is exact
  here; float rounding is not modelled.  All properties below compare outputs of
  the embedded functions with each other or assert structural facts, so rounding
  plays no role in any of them.
* WebGL buffer handles (`gl.createBuffer()`) are modelled as natural numbers drawn
  from a counter in the renderer state; the contents uploaded into a device buffer
  are stored next to its handle in `NativeArray`, since each handle receives
  exactly one logical content stream.
* `WebGLUnsignedShortArray` (`Uint16Array`) entries are reduced mod 65536 on store.
* Math primitives (`Vect3d`, `Matrix4`, ...) and the `SceneNode` class hierarchy
  are not part of the given sources (only `renderer.js`, `flacescene.js`,
  `ccfileloader.js`, `cubescenenode.js`, and the `Vertex3D` fragment are); where
  such code is needed it is modelled from the spec and marked as such.
-/

set_option maxRecDepth 16384

namespace CL3D

/-- Modelled from the spec: `CL3D.Vect3d`, a 3d vector (math primitive, not under
src/). Components are JS numbers, modelled as rationals. -/
structure Vect3d where
  X : Rat
  Y : Rat
  Z : Rat
deriving DecidableEq

/-- Modelled from the spec: squared distance between two points
(`Vect3d.getDistanceFromSQ`), used by the light / transparent-node distance
sorts in `Scene.drawAll`. -/
def Vect3d.getDistanceFromSQ (a b : Vect3d) : Rat :=
  (a.X - b.X) * (a.X - b.X) + (a.Y - b.Y) * (a.Y - b.Y) + (a.Z - b.Z) * (a.Z - b.Z)

/-- Modelled from the spec: `CL3D.Vect2d`, a 2d vector (texture coordinates). -/
structure Vect2d where
  X : Rat
  Y : Rat
deriving DecidableEq

/-- Modelled from the spec: `CL3D.ColorF`, a floating point RGB color as used for
the ambient light and light colors. -/
structure ColorF where
  R : Rat
  G : Rat
  B : Rat
deriving DecidableEq

/-- Modelled from the spec: `CL3D.getAlpha` on a packed 32 bit ARGB color. -/
def getAlpha (c : Nat) : Nat := c / 16777216 % 256

/-- Modelled from the spec: `CL3D.getRed` on a packed 32 bit ARGB color. -/
def getRed (c : Nat) : Nat := c / 65536 % 256

/-- Modelled from the spec: `CL3D.getGreen` on a packed 32 bit ARGB color. -/
def getGreen (c : Nat) : Nat := c / 256 % 256

/-- Modelled from the spec: `CL3D.getBlue` on a packed 32 bit ARGB color. -/
def getBlue (c : Nat) : Nat := c % 256

/-- `CL3D.Vertex3D` (given source fragment): position, normal, packed color and
two texture coordinate pairs. -/
structure Vertex3D where
  Pos : Vect3d
  Normal : Vect3d
  Color : Nat
  TCoords : Vect2d
  TCoords2 : Vect2d
deriving DecidableEq

/-- Modelled from the spec: `CL3D.Matrix4`, a 4 by 4 matrix (math primitive, not
under src/), stored as its 16 entries in row-major order. The modelled code only
multiplies matrices, compares them, inverts the World matrix and transforms
vectors, so those are the modelled operations. -/
structure Matrix4 where
  e : List Rat
deriving DecidableEq

/-- Entry of a `Matrix4` at a row and column (0 based). -/
def Matrix4.entry (m : Matrix4) (row col : Nat) : Rat := m.e.getD (row * 4 + col) 0

/-- The identity matrix, `new CL3D.Matrix4(true)`. -/
def Matrix4.identity : Matrix4 :=
  ⟨[1, 0, 0, 0,  0, 1, 0, 0,  0, 0, 1, 0,  0, 0, 0, 1]⟩

/-- Matrix product, `Matrix4.multiply`. -/
def Matrix4.multiply (a b : Matrix4) : Matrix4 :=
  ⟨(List.range 16).map (fun k =>
    let r := k / 4
    let c := k % 4
    a.entry r 0 * b.entry 0 c + a.entry r 1 * b.entry 1 c +
    a.entry r 2 * b.entry 2 c + a.entry r 3 * b.entry 3 c)⟩

/-- Affine transform of a point by a matrix (`Matrix4.getTransformedVect`), with
the translation in the fourth row as in the engine conventions. -/
def Matrix4.getTransformedVect (m : Matrix4) (v : Vect3d) : Vect3d :=
  { X := v.X * m.entry 0 0 + v.Y * m.entry 1 0 + v.Z * m.entry 2 0 + m.entry 3 0
  , Y := v.X * m.entry 0 1 + v.Y * m.entry 1 1 + v.Z * m.entry 2 1 + m.entry 3 1
  , Z := v.X * m.entry 0 2 + v.Y * m.entry 1 2 + v.Z * m.entry 2 2 + m.entry 3 2 }

/-- Determinant of a 3 by 3 matrix given by its nine entries, helper for the
4 by 4 inverse. -/
def det3 (a b c d e f g h i : Rat) : Rat :=
  a * (e * i - f * h) - b * (d * i - f * g) + c * (d * h - e * g)

/-- The 3 by 3 minor of a `Matrix4` obtained by deleting one row and column. -/
def Matrix4.minor (m : Matrix4) (row col : Nat) : Rat :=
  match (List.range 4).filter (fun x => x != row), (List.range 4).filter (fun x => x != col) with
  | [r0, r1, r2], [c0, c1, c2] =>
    det3 (m.entry r0 c0) (m.entry r0 c1) (m.entry r0 c2)
         (m.entry r1 c0) (m.entry r1 c1) (m.entry r1 c2)
         (m.entry r2 c0) (m.entry r2 c1) (m.entry r2 c2)
  | _, _ => 0

/-- Determinant of a `Matrix4` by cofactor expansion along the first row. -/
def Matrix4.det (m : Matrix4) : Rat :=
  m.entry 0 0 * m.minor 0 0 - m.entry 0 1 * m.minor 0 1 +
  m.entry 0 2 * m.minor 0 2 - m.entry 0 3 * m.minor 0 3

/-- Modelled from the spec: `Matrix4.getInverse(out)` computes the inverse into
`out` and leaves `out` untouched when the matrix is singular; modelled as a
function returning either the adjugate-based inverse or the fallback value. -/
def Matrix4.getInverseOr (m fallback : Matrix4) : Matrix4 :=
  let d := m.det
  if d = 0 then fallback
  else
    ⟨(List.range 16).map (fun k =>
      let i := k / 4
      let j := k % 4
      (if (i + j) % 2 = 0 then (1 : Rat) else -1) * m.minor j i / d)⟩

/-- Modelled from the spec: a dynamic `CL3D.Light` data record: position, color,
attenuation and radius (the directional variant is not needed by the modelled
draw path portions below). -/
structure Light where
  Position : Vect3d
  Color : ColorF
  Attenuation : Rat
  Radius : Rat
deriving DecidableEq

/-- A compiled shader program as the draw path sees it: which of the fixed,
known uniform locations were found in the shader (a `true` flag corresponds to a
non-null cached `loc...` member on the JS program object). -/
structure Program where
  locWorldViewProj : Bool
  locNormalMatrix : Bool
  locModelViewMatrix : Bool
  locModelWorldMatrix : Bool
  locLightPositions : Bool
  locLightColors : Bool
  locDirectionalLight : Bool
deriving DecidableEq

/-- The GL primitive mode constant `gl.TRIANGLES`. -/
def GL_TRIANGLES : Nat := 4

/-- Device-side resource of a mesh buffer (the `obj` built by
`createRendererNativeArray`, renderer.js 414-542): buffer handles, the CPU-side
mirror arrays kept for later in-place updates (`obj.positionsArray`,
`obj.colorArray`), the uploaded contents of the static buffers, the re-wound
index array, and the capacity bookkeeping (`indexCount`, `vertexCount`). -/
structure NativeArray where
  positionBuffer : Nat
  texcoordsBuffer : Nat
  texcoordsBuffer2 : Nat
  normalBuffer : Nat
  tangentBuffer : Option Nat
  binormalBuffer : Option Nat
  colorBuffer : Nat
  indexBuffer : Nat
  positionsArray : List Rat
  colorArray : List Rat
  normalsData : List Rat
  tcoordsData : List Rat
  tcoordsData2 : List Rat
  tangentsData : Option (List Rat)
  binormalsData : Option (List Rat)
  indexArray : List Nat
  indexCount : Nat
  vertexCount : Nat
deriving DecidableEq

/-- `CL3D.MeshBuffer`: CPU-side geometry batch with its lazily attached device
resource and the two update-flavored dirty flags consumed by `drawMeshBuffer`. -/
structure MeshBuffer where
  Vertices : List Vertex3D
  Indices : List Nat
  Tangents : Option (List Vect3d)
  Binormals : Option (List Vect3d)
  RendererNativeArray : Option NativeArray
  OnlyPositionsChanged : Bool
  OnlyUpdateBufferIfPossible : Bool
deriving DecidableEq

/-- `CL3D.Renderer` state relevant to the modelled draw path: current matrices,
ambient light, dynamic light list, directional light, the texture-was-loaded
flag consumed by the redraw decision, the currently bound program, and the
handle counter modelling `gl.createBuffer()`. -/
structure Renderer where
  Projection : Matrix4
  View : Matrix4
  World : Matrix4
  AmbientLight : ColorF
  Lights : List Light
  DirectionalLight : Option Light
  textureWasLoadedFlag : Bool
  currentGLProgram : Option Program
  nextBufferId : Nat
deriving DecidableEq

/-- `CL3D.Renderer.prototype.getAndResetTextureWasLoadedFlag` (renderer.js
102-107). -/
def Renderer.getAndResetTextureWasLoadedFlag (r : Renderer) : Bool × Renderer :=
  (r.textureWasLoadedFlag, { r with textureWasLoadedFlag := false })

/-- `CL3D.Renderer.prototype.clearDynamicLights` (renderer.js 1167-1171). -/
def Renderer.clearDynamicLights (r : Renderer) : Renderer :=
  { r with Lights := [], DirectionalLight := none }

/-- `CL3D.Renderer.prototype.addDynamicLight` (renderer.js 1178-1181). -/
def Renderer.addDynamicLight (r : Renderer) (l : Light) : Renderer :=
  { r with Lights := r.Lights ++ [l] }

/-- Reduction of a stored value to 16 bits, the store semantics of the
`WebGLUnsignedShortArray` (`Uint16Array`) index upload. -/
def toUint16 (n : Nat) : Nat := n % 65536

/-- The index re-winding loop shared by `createRendererNativeArray`
(renderer.js 477-485) and the index regeneration inside
`updateRendererNativeArray` (renderer.js 358-375): for every full triple the
second and third index are swapped. A trailing single index is copied as is; in
a trailing pair the second slot keeps the 0 the typed array starts filled
with (the loop reads past the end of the source array there). -/
def rewindIndices : List Nat → List Nat
  | i0 :: i1 :: i2 :: rest => toUint16 i0 :: toUint16 i2 :: toUint16 i1 :: rewindIndices rest
  | [i0, _] => [toUint16 i0, 0]
  | [i0] => [toUint16 i0]
  | [] => []

/-- Vertex loop of `createRendererNativeArray`, position part (renderer.js
439-441): three floats per vertex. -/
def buildPositionsArray : List Vertex3D → List Rat
  | [] => []
  | v :: rest => v.Pos.X :: v.Pos.Y :: v.Pos.Z :: buildPositionsArray rest

/-- Vertex loop of `createRendererNativeArray`, normal part (renderer.js
443-445). -/
def buildNormalsArray : List Vertex3D → List Rat
  | [] => []
  | v :: rest => v.Normal.X :: v.Normal.Y :: v.Normal.Z :: buildNormalsArray rest

/-- Vertex loop of `createRendererNativeArray`, first texture coordinates
(renderer.js 447-448). -/
def buildTCoordsArray : List Vertex3D → List Rat
  | [] => []
  | v :: rest => v.TCoords.X :: v.TCoords.Y :: buildTCoordsArray rest

/-- Vertex loop of `createRendererNativeArray`, second texture coordinates
(renderer.js 450-451). -/
def buildTCoords2Array : List Vertex3D → List Rat
  | [] => []
  | v :: rest => v.TCoords2.X :: v.TCoords2.Y :: buildTCoords2Array rest

/-- Vertex loop of `createRendererNativeArray` and of
`updateRendererNativeArray`, color part (renderer.js 453-456 and 345-348): four
floats per vertex, each channel scaled by 1/255. -/
def buildColorArray : List Vertex3D → List Rat
  | [] => []
  | v :: rest =>
    (getRed v.Color : Rat) / 255 :: (getGreen v.Color : Rat) / 255 ::
    (getBlue v.Color : Rat) / 255 :: (getAlpha v.Color : Rat) / 255 :: buildColorArray rest

/-- Tangent / binormal fill loop of `createRendererNativeArray` (renderer.js
461-474): three floats per vector. -/
def buildVectorArray : List Vect3d → List Rat
  | [] => []
  | t :: rest => t.X :: t.Y :: t.Z :: buildVectorArray rest

/-- `CL3D.Renderer.prototype.createRendererNativeArray` (renderer.js 414-542):
builds all vertex attribute arrays and the re-wound index array, allocates one
device buffer per attribute stream (in the `gl.createBuffer()` call order of
the source), stores the positions and color arrays on the resource for later
in-place updates, and attaches the resource to the buffer. Note that this
version of the function has no empty-vertex or empty-index early-out: it builds
a (zero length) resource for an empty mesh buffer as well. -/
def Renderer.createRendererNativeArray (r : Renderer) (buf : MeshBuffer) : Renderer × MeshBuffer :=
  match buf.RendererNativeArray with
  | some _ => (r, buf)
  | none =>
    let len := buf.Vertices.length
    let withTB := buf.Tangents.isSome && buf.Binormals.isSome
    let tangentsData := match buf.Tangents, buf.Binormals with
      | some ts, some _ => some (buildVectorArray ts)
      | _, _ => none
    let binormalsData := match buf.Tangents, buf.Binormals with
      | some _, some bs => some (buildVectorArray bs)
      | _, _ => none
    let n := r.nextBufferId
    let obj : NativeArray :=
      { positionBuffer := n
      , texcoordsBuffer := n + 1
      , texcoordsBuffer2 := n + 2
      , normalBuffer := n + 3
      , tangentBuffer := if withTB then some (n + 4) else none
      , binormalBuffer := if withTB then some (n + 5) else none
      , colorBuffer := if withTB then n + 6 else n + 4
      , indexBuffer := if withTB then n + 7 else n + 5
      , positionsArray := buildPositionsArray buf.Vertices
      , colorArray := buildColorArray buf.Vertices
      , normalsData := buildNormalsArray buf.Vertices
      , tcoordsData := buildTCoordsArray buf.Vertices
      , tcoordsData2 := buildTCoords2Array buf.Vertices
      , tangentsData := tangentsData
      , binormalsData := binormalsData
      , indexArray := rewindIndices buf.Indices
      , indexCount := buf.Indices.length
      , vertexCount := len }
    ({ r with nextBufferId := if withTB then n + 8 else n + 6 },
     { buf with RendererNativeArray := some obj
              , OnlyPositionsChanged := false
              , OnlyUpdateBufferIfPossible := false })

/-- `CL3D.Renderer.prototype.updateRendererNativeArray` (renderer.js 316-380):
no-op on an empty vertex or index list; a full re-create (discarding the old
resource) when the vertex or index count grew beyond the stored capacity;
otherwise an in-place overwrite of the positions and color arrays followed by a
`bufferSubData` upload (the mirror arrays model both), keeping every device
buffer handle. The index regeneration branch of the source (lines 358-375) is
kept although it is unreachable here, growth having been redirected above. The
`none` resource case cannot be reached through `drawMeshBuffer`, which only
calls this function on a buffer that already has a resource. -/
def Renderer.updateRendererNativeArray (r : Renderer) (buf : MeshBuffer) : Renderer × MeshBuffer :=
  if buf.Vertices.length = 0 || buf.Indices.length = 0 then (r, buf)
  else
    match buf.RendererNativeArray with
    | none => (r, buf)
    | some na =>
      if na.vertexCount < buf.Vertices.length || na.indexCount < buf.Indices.length then
        r.createRendererNativeArray { buf with RendererNativeArray := none }
      else
        let len := buf.Vertices.length
        let positionsArray := buildPositionsArray buf.Vertices ++ na.positionsArray.drop (3 * len)
        let colorArray := buildColorArray buf.Vertices ++ na.colorArray.drop (4 * len)
        let regen :=
          if na.indexCount < buf.Indices.length then
            ({ na with indexArray := rewindIndices buf.Indices, indexBuffer := r.nextBufferId },
             { r with nextBufferId := r.nextBufferId + 1 })
          else (na, r)
        let na2 := { regen.1 with positionsArray := positionsArray
                                , colorArray := colorArray
                                , indexCount := buf.Indices.length
                                , vertexCount := len }
        (regen.2, { buf with RendererNativeArray := some na2 })

/-- `CL3D.Renderer.prototype.updatePositionsInRendererNativeArray` (renderer.js
386-407): rewrites only the position mirror array in place and re-uploads it;
a no-op when no device resource exists. -/
def Renderer.updatePositionsInRendererNativeArray (r : Renderer) (buf : MeshBuffer) : Renderer × MeshBuffer :=
  match buf.RendererNativeArray with
  | none => (r, buf)
  | some na =>
    let positionsArray :=
      buildPositionsArray buf.Vertices ++ na.positionsArray.drop (3 * buf.Vertices.length)
    (r, { buf with RendererNativeArray := some ({ na with positionsArray := positionsArray }) })

/-- One four-component position slot of the loop body of
`setDynamicLightsIntoConstants` (renderer.js 696-733): (px, py, pz, att) for a
present light with its position transformed by `mat`, the constant dark light
slot for a missing one. -/
def lightPositionSlot (mat : Matrix4) (useOldNormalMappingAttenuationCalculation : Bool) :
    Option Light → List Rat
  | some l =>
    let vt := mat.getTransformedVect l.Position
    let attenuation :=
      if useOldNormalMappingAttenuationCalculation then 1 / (l.Radius * l.Radius)
      else l.Attenuation
    [vt.X, vt.Y, vt.Z, attenuation]
  | none => [1, 0, 0, 1]

/-- One four-component color slot of the loop body (renderer.js 715-718 and
729-732): (cr, cg, cb, 1) for a present light, the dark light otherwise. -/
def lightColorSlot : Option Light → List Rat
  | some l => [l.Color.R, l.Color.G, l.Color.B, 1]
  | none => [0, 0, 0, 1]

/-- `CL3D.Renderer.prototype.setDynamicLightsIntoConstants` (renderer.js
672-746), up to and including the two `uniform4fv` uploads it performs: packs
the first four lights of the light list as (px, py, pz, att) four-vectors, the
light positions transformed by the inverse of the World matrix unless
world-space positions were requested, fills missing slots with the constant
dark light, and packs the colors as four (cr, cg, cb, 1) slots followed by a
fifth slot carrying the ambient color. Returns the uploaded
(positionArray, colorArray) pair; the trailing directional-light upload of the
source (lines 750-772) touches neither array and is not modelled. -/
def Renderer.setDynamicLightsIntoConstants (r : Renderer)
    (useWorldSpacePositionsForLights useOldNormalMappingAttenuationCalculation : Bool) :
    List Rat × List Rat :=
  let mat :=
    if !useWorldSpacePositionsForLights && (decide (r.Lights.length > 0) || r.DirectionalLight.isSome) then
      r.World.getInverseOr Matrix4.identity
    else Matrix4.identity
  let positionArray := (List.range 4).flatMap (fun i =>
    lightPositionSlot mat useOldNormalMappingAttenuationCalculation r.Lights[i]?)
  let colorArray := (List.range 4).flatMap (fun i => lightColorSlot r.Lights[i]?)
    ++ [r.AmbientLight.R, r.AmbientLight.G, r.AmbientLight.B, 1]
  (positionArray, colorArray)

/-- Observable effect of one `gl.drawElements` issued by
`drawWebGlStaticGeometry`: the primitive mode, the index count drawn, the bound
index buffer and its device contents, and the light uniform arrays uploaded for
this draw (when the bound program has a light-positions uniform). -/
structure DrawCall where
  mode : Nat
  indexCountUsed : Nat
  indexBuffer : Nat
  indexArray : List Nat
  lightUniforms : Option (List Rat × List Rat)
deriving DecidableEq

/-- `CL3D.Renderer.prototype.drawWebGlStaticGeometry` (renderer.js 547-667):
binds the attribute and index buffers, uploads the matrix uniforms (which carry
no observable state modelled here), uploads the dynamic lights when the bound
program has a light-positions uniform (requesting world-space light positions
and the old attenuation exactly when tangents and binormals are present), and
issues a triangle draw of `indexCountToUse` indices, defaulting to the
index count of the resource. Without a bound program the source would fault;
modelled as no draw. -/
def Renderer.drawWebGlStaticGeometry (r : Renderer) (b : NativeArray)
    (indexCountToUse : Option Nat) : Option DrawCall :=
  match r.currentGLProgram with
  | none => none
  | some program =>
    let withTangentsAndBinormals := b.tangentBuffer.isSome && b.binormalBuffer.isSome
    let lightUniforms :=
      if program.locLightPositions then
        some (r.setDynamicLightsIntoConstants withTangentsAndBinormals withTangentsAndBinormals)
      else none
    let cnt := match indexCountToUse with
      | none => b.indexCount
      | some c => c
    some { mode := GL_TRIANGLES
         , indexCountUsed := cnt
         , indexBuffer := b.indexBuffer
         , indexArray := b.indexArray
         , lightUniforms := lightUniforms }

/-- `CL3D.Renderer.prototype.drawMeshBuffer` (renderer.js 289-310): lazily
creates the device resource, or runs the size-preserving or positions-only
update according to the dirty flags, resets both flags, and draws. -/
def Renderer.drawMeshBuffer (r : Renderer) (buf : MeshBuffer) (indexCountToUse : Option Nat) :
    Renderer × MeshBuffer × Option DrawCall :=
  let step :=
    match buf.RendererNativeArray with
    | none => r.createRendererNativeArray buf
    | some _ =>
      if buf.OnlyUpdateBufferIfPossible then r.updateRendererNativeArray buf
      else if buf.OnlyPositionsChanged then r.updatePositionsInRendererNativeArray buf
      else (r, buf)
  let r1 := step.1
  let b2 := { step.2 with OnlyPositionsChanged := false, OnlyUpdateBufferIfPossible := false }
  match b2.RendererNativeArray with
  | none => (r1, b2, none)
  | some na => (r1, b2, r1.drawWebGlStaticGeometry na indexCountToUse)

/-- Modelled from the spec: an axis-aligned bounding box (`CL3D.Box3d`, math
primitive not under src/). -/
structure Box3d where
  MinEdge : Vect3d
  MaxEdge : Vect3d
deriving DecidableEq

/-- Modelled from the spec: axis-interval overlap test
(`Box3d.intersectsWithBox`), the conservative culling test used by
`Scene.drawAll`. -/
def Box3d.intersectsWithBox (a other : Box3d) : Bool :=
  decide (a.MinEdge.X ≤ other.MaxEdge.X) && decide (other.MinEdge.X ≤ a.MaxEdge.X) &&
  decide (a.MinEdge.Y ≤ other.MaxEdge.Y) && decide (other.MinEdge.Y ≤ a.MaxEdge.Y) &&
  decide (a.MinEdge.Z ≤ other.MaxEdge.Z) && decide (other.MinEdge.Z ≤ a.MaxEdge.Z)

/-- Modelled from the spec: the bounding volume of the view frustrum
(`ViewFrustrum.getBoundingBox`, not under src/). The spec only requires a
conservative volume (false positives acceptable, false negatives not), so it is
modelled as a huge box around the camera; none of the verified properties
enables culling. -/
def viewFrustrumBoundingBox (_proj _view : Matrix4) (camPos : Vect3d) : Box3d :=
  { MinEdge := { X := camPos.X - 1000000000, Y := camPos.Y - 1000000000, Z := camPos.Z - 1000000000 }
  , MaxEdge := { X := camPos.X + 1000000000, Y := camPos.Y + 1000000000, Z := camPos.Z + 1000000000 } }

/-- Modelled from the spec: the slice of a `CL3D.SceneNode` the scene logic of
flacescene.js observes. `nid` identifies the node (render calls are recorded as
node ids), `absPos` is `getAbsolutePosition()`, `TransformedBox` is
`getTransformedBoundingBox()`, `Selector` the attached triangle selector, and
`lightData` is, for a light scene node, the dynamic light its render method
hands to `Renderer.addDynamicLight`. -/
structure SNode where
  nid : Nat
  absPos : Vect3d
  TransformedBox : Box3d
  Selector : Option Nat
  lightData : Option Light
deriving DecidableEq

/-- Modelled from the spec: the slice of a `CL3D.CameraSceneNode` the scene
logic observes: projection and view matrices and the absolute position. Its
render method publishes the two matrices into the renderer. -/
structure CameraSceneNode where
  Projection : Matrix4
  ViewMatrix : Matrix4
  absPos : Vect3d
deriving DecidableEq

/-- One entry of the deferred deletion queue, as built by
`Scene.addToDeletionQueue` (flacescene.js 773-780). -/
structure DeletionEntry where
  node : SNode
  timeAfterToDelete : Nat
deriving DecidableEq

/-- `CL3D.Scene` state relevant to the modelled per-frame logic (flacescene.js
`init`, 28-68). `ParentOf` models the scene-graph attachment as (child id,
parent id) pairs, standing in for the `Parent` back-links and `Children` lists
of the SceneNode class (not under src/); `CollisionWorld` is modelled as the
list of selector ids the collision world currently indexes. Note the two
distinct skybox fields of the source: `init` and `doAnimate` write
`TheSkyBoxSceneNode` while `registerNodeForRendering` and `drawAll` use
`SkyBoxSceneNode`. -/
structure Scene where
  AmbientLight : ColorF
  CollisionWorld : Option (List Nat)
  ActiveCamera : Option CameraSceneNode
  ForceRedrawThisFrame : Bool
  LastViewProj : Matrix4
  TheSkyBoxSceneNode : Option SNode
  SkyBoxSceneNode : Option SNode
  RedrawMode : Nat
  SceneNodesToRender : List SNode
  SceneNodesToRenderTransparent : List SNode
  LightsToRender : List SNode
  Overlay2DToRender : List SNode
  NodeCountRenderedLastTime : Nat
  UseCulling : Bool
  StartTime : Nat
  DeletionList : List DeletionEntry
  ParentOf : List (Nat × Nat)
deriving DecidableEq

/-- Field values established by `CL3D.Scene.prototype.init` (flacescene.js
28-68); the scene graph starts empty. -/
def Scene.init : Scene :=
  { AmbientLight := { R := 0, G := 0, B := 0 }
  , CollisionWorld := none
  , ActiveCamera := none
  , ForceRedrawThisFrame := false
  , LastViewProj := ⟨[]⟩
  , TheSkyBoxSceneNode := none
  , SkyBoxSceneNode := none
  , RedrawMode := 2
  , SceneNodesToRender := []
  , SceneNodesToRenderTransparent := []
  , LightsToRender := []
  , Overlay2DToRender := []
  , NodeCountRenderedLastTime := 0
  , UseCulling := false
  , StartTime := 0
  , DeletionList := []
  , ParentOf := [] }

/-- Constant `CL3D.Scene.REDRAW_WHEN_CAM_MOVED` (flacescene.js 900). Note its
value: it coincides with `REDRAW_EVERY_FRAME`, while the mode `doAnimate`
handles under the comment `REDRAW_WHEN_CAM_MOVED` is 0. -/
def Scene.REDRAW_WHEN_CAM_MOVED : Nat := 2

/-- Constant `CL3D.Scene.REDRAW_WHEN_SCENE_CHANGED` (flacescene.js 907). -/
def Scene.REDRAW_WHEN_SCENE_CHANGED : Nat := 1

/-- Constant `CL3D.Scene.REDRAW_EVERY_FRAME` (flacescene.js 914). -/
def Scene.REDRAW_EVERY_FRAME : Nat := 2

/-- Constant `CL3D.Scene.RENDER_MODE_SKYBOX` (flacescene.js 922). -/
def Scene.RENDER_MODE_SKYBOX : Nat := 1

/-- Constant `CL3D.Scene.RENDER_MODE_DEFAULT` (flacescene.js 929). -/
def Scene.RENDER_MODE_DEFAULT : Nat := 0

/-- Constant `CL3D.Scene.RENDER_MODE_LIGHTS` (flacescene.js 936). -/
def Scene.RENDER_MODE_LIGHTS : Nat := 2

/-- Constant `CL3D.Scene.RENDER_MODE_CAMERA` (flacescene.js 943). -/
def Scene.RENDER_MODE_CAMERA : Nat := 3

/-- Constant `CL3D.Scene.RENDER_MODE_TRANSPARENT` (flacescene.js 950). -/
def Scene.RENDER_MODE_TRANSPARENT : Nat := 4

/-- Constant `CL3D.Scene.RENDER_MODE_2DOVERLAY` (flacescene.js 957). -/
def Scene.RENDER_MODE_2DOVERLAY : Nat := 5

/-- `CL3D.Scene.prototype.setRedrawMode` (flacescene.js 370-373). -/
def Scene.setRedrawMode (s : Scene) (mode : Nat) : Scene :=
  { s with RedrawMode := mode }

/-- `CL3D.Scene.prototype.forceRedrawNextFrame` (flacescene.js 399-402). -/
def Scene.forceRedrawNextFrame (s : Scene) : Scene :=
  { s with ForceRedrawThisFrame := true }

/-- `CL3D.Scene.prototype.setActiveCamera` (flacescene.js 380-383). -/
def Scene.setActiveCamera (s : Scene) (cam : Option CameraSceneNode) : Scene :=
  { s with ActiveCamera := cam }

/-- `CL3D.Scene.prototype.HasViewChangedSinceLastRedraw` (flacescene.js
293-303): true without an active camera, otherwise true exactly when the
product Projection times ViewMatrix of the camera differs from the stored one. -/
def Scene.HasViewChangedSinceLastRedraw (s : Scene) : Bool :=
  match s.ActiveCamera with
  | none => true
  | some cam => !(decide (cam.Projection.multiply cam.ViewMatrix = s.LastViewProj))

/-- `CL3D.Scene.prototype.StoreViewMatrixForRedrawCheck` (flacescene.js
308-315). -/
def Scene.StoreViewMatrixForRedrawCheck (s : Scene) : Scene :=
  match s.ActiveCamera with
  | none => s
  | some cam => { s with LastViewProj := cam.Projection.multiply cam.ViewMatrix }

/-- `CL3D.Scene.prototype.addToDeletionQueue` (flacescene.js 773-780), with the
current `CL3D.CLTimer.getTime()` value passed in as `now`. -/
def Scene.addToDeletionQueue (s : Scene) (node : SNode) (afterTimeMs now : Nat) : Scene :=
  { s with DeletionList := s.DeletionList ++ [{ node := node, timeAfterToDelete := afterTimeMs + now }] }

/-- Loop body of `clearDeletionList` (flacescene.js 793-809): walks the queue,
removes every entry that is past its deadline (or every entry when `deleteAll`),
detaching the node from its parent (`Parent.removeChild`) and removing its
selector from the collision world; kept entries stay in order. The
splice-while-iterating of the source is exactly this filter-style recursion. -/
def clearDeletionListwalk (deleteAll : Bool) (now : Nat) :
    List DeletionEntry → List (Nat × Nat) → Option (List Nat) →
    List DeletionEntry × List (Nat × Nat) × Option (List Nat) × Bool
  | [], parentOf, collisionWorld => ([], parentOf, collisionWorld, false)
  | e :: rest, parentOf, collisionWorld =>
    if deleteAll || decide (e.timeAfterToDelete < now) then
      let parentOf2 := parentOf.filter (fun pr => pr.1 != e.node.nid)
      let collisionWorld2 :=
        match collisionWorld, e.node.Selector with
        | some sels, some sel => some (sels.filter (fun x => x != sel))
        | _, _ => collisionWorld
      let res := clearDeletionListwalk deleteAll now rest parentOf2 collisionWorld2
      (res.1, res.2.1, res.2.2.1, true)
    else
      let res := clearDeletionListwalk deleteAll now rest parentOf collisionWorld
      (e :: res.1, res.2.1, res.2.2.1, res.2.2.2)

/-- `CL3D.Scene.prototype.clearDeletionList` (flacescene.js 785-812): returns
the updated scene and whether anything was removed (false immediately on an
empty queue). -/
def Scene.clearDeletionList (s : Scene) (deleteAll : Bool) (now : Nat) : Scene × Bool :=
  if s.DeletionList.isEmpty then (s, false)
  else
    let res := clearDeletionListwalk deleteAll now s.DeletionList s.ParentOf s.CollisionWorld
    ({ s with DeletionList := res.1, ParentOf := res.2.1, CollisionWorld := res.2.2.1 }, res.2.2.2)

/-- `CL3D.Scene.prototype.doAnimate` (flacescene.js 94-134). External
collaborators are passed in explicitly: `now` is `CL3D.CLTimer.getTime()`,
`rootOnAnimateChanged` the aggregated return of `RootNode.OnAnimate` (the
animate traversal of the SceneNode hierarchy, not under src/), and
`scriptNeedsRedraw` the `ScriptingInterface.needsRedraw()` flag. Nulls the
field `TheSkyBoxSceneNode` (not the `SkyBoxSceneNode` slot rendering uses), flushes the deletion queue, evaluates the
redraw decision for the configured mode, and consumes the one-shot force-redraw
flag exactly when it decides to redraw. -/
def Scene.doAnimate (s : Scene) (renderer : Option Renderer) (now : Nat)
    (rootOnAnimateChanged scriptNeedsRedraw : Bool) : Scene × Option Renderer × Bool :=
  let s1 := if s.StartTime = 0 then { s with StartTime := now } else s
  let s2 := { s1 with TheSkyBoxSceneNode := none }
  let flushed := s2.clearDeletionList false now
  let s3 := flushed.1
  let sceneChanged := flushed.2 || rootOnAnimateChanged
  let viewHasChanged := s3.HasViewChangedSinceLastRedraw
  let texflag :=
    match renderer with
    | some rr => let g := rr.getAndResetTextureWasLoadedFlag
                 (g.1, some g.2)
    | none => (false, none)
  let textureLoadWasFinished := texflag.1
  let needToRedraw :=
    s3.ForceRedrawThisFrame ||
    (decide (s3.RedrawMode = 0) && (viewHasChanged || textureLoadWasFinished)) ||
    (decide (s3.RedrawMode = 1) && (viewHasChanged || sceneChanged || textureLoadWasFinished)) ||
    decide (s3.RedrawMode = 2) ||
    scriptNeedsRedraw
  if !needToRedraw then (s3, texflag.2, false)
  else ({ s3 with ForceRedrawThisFrame := false }, texflag.2, true)

/-- `CL3D.Scene.prototype.registerNodeForRendering` (flacescene.js 424-450):
the skybox slot holds the last registered node, the camera mode is ignored, the
other modes append to their category list; an unknown mode falls through the
switch with no effect. -/
def Scene.registerNodeForRendering (s : Scene) (n : SNode) (mode : Nat) : Scene :=
  if mode = Scene.RENDER_MODE_SKYBOX then { s with SkyBoxSceneNode := some n }
  else if mode = Scene.RENDER_MODE_DEFAULT then
    { s with SceneNodesToRender := s.SceneNodesToRender ++ [n] }
  else if mode = Scene.RENDER_MODE_LIGHTS then
    { s with LightsToRender := s.LightsToRender ++ [n] }
  else if mode = Scene.RENDER_MODE_CAMERA then s
  else if mode = Scene.RENDER_MODE_TRANSPARENT then
    { s with SceneNodesToRenderTransparent := s.SceneNodesToRenderTransparent ++ [n] }
  else if mode = Scene.RENDER_MODE_2DOVERLAY then
    { s with Overlay2DToRender := s.Overlay2DToRender ++ [n] }
  else s

/-- The light sort of `Scene.drawAll` (flacescene.js 191-200): the JS comparator
orders by ascending squared distance from the camera and returns 0 on ties.
`Array.prototype.sort` with a consistent comparator is a stable sort by the
total preorder given by comparator values at most 0, and the stable sort of a
list by a total preorder is unique, so the structurally recursive
`List.insertionSort` by that preorder is an exact model. -/
def sortLightsNearestFirst (camPos : Vect3d) (l : List SNode) : List SNode :=
  List.insertionSort
    (fun a b => camPos.getDistanceFromSQ a.absPos ≤ camPos.getDistanceFromSQ b.absPos) l

/-- The transparent-node sort of `Scene.drawAll` (flacescene.js 252-261): same
stable-sort model as `sortLightsNearestFirst`, with the comparator reversed —
the node farther from the camera comes first, ties keep registration order. -/
def sortTransparentFarthestFirst (camPos : Vect3d) (l : List SNode) : List SNode :=
  List.insertionSort
    (fun a b => camPos.getDistanceFromSQ b.absPos ≤ camPos.getDistanceFromSQ a.absPos) l

/-- Culling condition of the two node render loops (flacescene.js 238 and 269):
a node is rendered when there is no culling box or its transformed bounding box
intersects it. -/
def passesCulling (cullingBox : Option Box3d) (n : SNode) : Bool :=
  match cullingBox with
  | none => true
  | some cb => cb.intersectsWithBox n.TransformedBox

set_option maxHeartbeats 2000000 in
/-- `CL3D.Scene.prototype.drawAll` (flacescene.js 154-287). The registration
traversal `RootNode.OnRegisterSceneNode` (SceneNode hierarchy, not under src/)
is passed in as the list `regs` of (node, mode) registration calls it performs,
applied in order through `registerNodeForRendering`. Rendering a node is
recorded as its node id in the returned render order; the camera render
publishes its matrices into the renderer, a light render adds its dynamic
light. Returns the updated scene (sorted lists, stored view-projection,
node counter), the updated renderer, and the render order. -/
def Scene.drawAll (s : Scene) (renderer : Renderer) (regs : List (SNode × Nat)) :
    Scene × Renderer × List Nat :=
  let s1 := { s with SceneNodesToRender := [], SceneNodesToRenderTransparent := []
                   , LightsToRender := [], Overlay2DToRender := [] }
  let s2 := regs.foldl (fun acc reg => acc.registerNodeForRendering reg.1 reg.2) s1
  let camPos := s2.ActiveCamera.map (fun c => c.absPos)
  let r1 :=
    match s2.ActiveCamera with
    | some cam => { renderer with Projection := cam.Projection, View := cam.ViewMatrix }
    | none => renderer
  let skyboxRendered :=
    match s2.SkyBoxSceneNode with
    | some sb => [sb.nid]
    | none => []
  let r2 := { r1.clearDynamicLights with AmbientLight := s2.AmbientLight }
  let s3 :=
    match camPos with
    | some cp =>
      if s2.LightsToRender.length > 0 then
        { s2 with LightsToRender := sortLightsNearestFirst cp s2.LightsToRender }
      else s2
    | none => s2
  let r3 := s3.LightsToRender.foldl (fun acc n =>
    match n.lightData with
    | some l => acc.addDynamicLight l
    | none => acc) r2
  let lightsRendered := s3.LightsToRender.map (fun n => n.nid)
  let cullingBox : Option Box3d :=
    match camPos with
    | some cp => if s3.UseCulling then some (viewFrustrumBoundingBox r3.Projection r3.View cp) else none
    | none => none
  let visibleDefault := s3.SceneNodesToRender.filter (passesCulling cullingBox)
  let s4 :=
    match camPos with
    | some cp =>
      if s3.SceneNodesToRenderTransparent.length > 0 then
        { s3 with SceneNodesToRenderTransparent :=
            sortTransparentFarthestFirst cp s3.SceneNodesToRenderTransparent }
      else s3
    | none => s3
  let visibleTransparent := s4.SceneNodesToRenderTransparent.filter (passesCulling cullingBox)
  let overlayRendered := s4.Overlay2DToRender.map (fun n => n.nid)
  let nodesRendered :=
    s4.LightsToRender.length + visibleDefault.length + visibleTransparent.length +
    s4.Overlay2DToRender.length
  let s5 := { s4 with NodeCountRenderedLastTime := nodesRendered }
  let s6 := s5.StoreViewMatrixForRedrawCheck
  (s6, r3,
   skyboxRendered ++ lightsRendered ++ visibleDefault.map (fun n => n.nid) ++
   visibleTransparent.map (fun n => n.nid) ++ overlayRendered)

/-- Four-component slot `i` of a packed uniform array, for stating the light
packing properties. -/
def slot4 (l : List Rat) (i : Nat) : List Rat := (l.drop (4 * i)).take 4

/-!
Concrete fixtures used to instantiate the verified properties.
-/

/-- A degenerate bounding box for nodes whose box is irrelevant (culling is
disabled in every property below). -/
def zeroBox : Box3d := ⟨⟨0, 0, 0⟩, ⟨0, 0, 0⟩⟩

/-- A program that has every known uniform location. -/
def sampleProgram : Program := ⟨true, true, true, true, true, true, true⟩

/-- A renderer in its post-initialization state with `sampleProgram` bound. -/
def sampleRenderer : Renderer :=
  { Projection := Matrix4.identity, View := Matrix4.identity, World := Matrix4.identity
  , AmbientLight := ⟨0, 0, 0⟩, Lights := [], DirectionalLight := none
  , textureWasLoadedFlag := false, currentGLProgram := some sampleProgram, nextBufferId := 1 }

/-- A vertex at a given position with a given packed color. -/
def sampleVertex (x y z : Rat) (c : Nat) : Vertex3D :=
  { Pos := ⟨x, y, z⟩, Normal := ⟨0, 0, 1⟩, Color := c, TCoords := ⟨0, 0⟩, TCoords2 := ⟨0, 0⟩ }

/-- A one-triangle mesh buffer with no device resource yet. -/
def sampleBuffer : MeshBuffer :=
  { Vertices := [sampleVertex 0 0 0 4278190335, sampleVertex 1 0 0 4294967295, sampleVertex 0 1 0 4278255360]
  , Indices := [0, 1, 2], Tangents := none, Binormals := none
  , RendererNativeArray := none, OnlyPositionsChanged := false, OnlyUpdateBufferIfPossible := false }

/-- A mesh buffer with empty vertex and index lists. -/
def emptyBuffer : MeshBuffer :=
  { Vertices := [], Indices := [], Tangents := none, Binormals := none
  , RendererNativeArray := none, OnlyPositionsChanged := false, OnlyUpdateBufferIfPossible := false }

/-- A camera at the origin with identity matrices. -/
def sampleCamera : CameraSceneNode := ⟨Matrix4.identity, Matrix4.identity, ⟨0, 0, 0⟩⟩

/-- A scene whose camera View times Projection product equals the stored
`LastViewProj`, with the redraw mode set through the public constant
`CL3D.Scene.REDRAW_WHEN_CAM_MOVED`: the configuration of the redraw policy
property. -/
def sceneUnchangedCam : Scene :=
  (Scene.init.setActiveCamera (some sampleCamera)).setRedrawMode Scene.REDRAW_WHEN_CAM_MOVED
    |>.StoreViewMatrixForRedrawCheck

/-- A node carrying a selector, used in the deferred-deletion properties. -/
def deletionNode : SNode := ⟨42, ⟨0, 0, 0⟩, zeroBox, some 9, none⟩

/-- A scene in which `deletionNode` is attached to the root (id 0), its selector
is indexed by the collision world, and the node was queued for deletion at time
0 with a 500 ms delay. -/
def sceneWithDeletion : Scene :=
  ({ Scene.init with ParentOf := [(42, 0)], CollisionWorld := some [9, 11] }).addToDeletionQueue
    deletionNode 500 0

/-- A skybox node, registered on the first frame only in the stale-skybox
property. -/
def skyboxNode : SNode := ⟨7, ⟨0, 0, 0⟩, zeroBox, none, none⟩

/-- An ordinary node registered into the default category on the first frame
only. -/
def defaultNode : SNode := ⟨1, ⟨0, 0, 0⟩, zeroBox, none, none⟩

/-- First frame of the stale-skybox scenario: a default node and a skybox
register themselves and are drawn. -/
def frameOne : Scene × Renderer × List Nat :=
  Scene.init.drawAll sampleRenderer
    [(defaultNode, Scene.RENDER_MODE_DEFAULT), (skyboxNode, Scene.RENDER_MODE_SKYBOX)]

/-- A two-vertex mesh buffer (no device resource yet), the starting point of the
grow / shrink update scenarios. -/
def twoVertexBuffer : MeshBuffer :=
  { Vertices := [sampleVertex 1 2 3 0, sampleVertex 4 5 6 0], Indices := [0, 1, 0]
  , Tangents := none, Binormals := none
  , RendererNativeArray := none, OnlyPositionsChanged := false, OnlyUpdateBufferIfPossible := false }

/-- `twoVertexBuffer` with its device resource created. -/
def createdTwoVertexBuffer : MeshBuffer :=
  (sampleRenderer.createRendererNativeArray twoVertexBuffer).2

/-- The device resource attached to `createdTwoVertexBuffer` (the fallback arm
is unreachable: create always attaches a resource). -/
def createdTwoVertexResource : NativeArray :=
  match createdTwoVertexBuffer.RendererNativeArray with
  | some na => na
  | none => ⟨0, 0, 0, 0, none, none, 0, 0, [], [], [], [], [], none, none, [], 0, 0⟩

/-- `createdTwoVertexBuffer` shrunk to a single vertex: capacity not exceeded,
so the size-preserving update takes the in-place path. -/
def shrunkBuffer : MeshBuffer :=
  { createdTwoVertexBuffer with Vertices := [sampleVertex 7 8 9 0], Indices := [0, 0, 0] }

/-- `createdTwoVertexBuffer` grown to three vertices and six indices: capacity
exceeded, so the size-preserving update degrades to a full create. -/
def grownBuffer : MeshBuffer :=
  { createdTwoVertexBuffer with
      Vertices := [sampleVertex 1 2 3 0, sampleVertex 4 5 6 0, sampleVertex 7 8 9 0]
    , Indices := [0, 1, 2, 2, 1, 0] }

/-- Transparent node at squared distance 1 from the origin. -/
def transparentNode1 : SNode := ⟨1, ⟨1, 0, 0⟩, zeroBox, none, none⟩

/-- Transparent node at squared distance 25 from the origin, registered second. -/
def transparentNode2 : SNode := ⟨2, ⟨5, 0, 0⟩, zeroBox, none, none⟩

/-- Transparent node at squared distance 25 from the origin, registered third. -/
def transparentNode3 : SNode := ⟨3, ⟨0, 5, 0⟩, zeroBox, none, none⟩

/-- A scene with the camera at the origin, for the transparent-sort property. -/
def sceneWithCamera : Scene := { Scene.init with ActiveCamera := some sampleCamera }

/-- A point light at a given x coordinate whose red channel doubles as a
marker. -/
def lightAt (x : Rat) : Light := ⟨⟨x, 0, 0⟩, ⟨x, 0, 0⟩, 1, 1⟩

/-- A renderer with five registered point lights and a non-trivial ambient
light. -/
def rendererFiveLights : Renderer :=
  { sampleRenderer with Lights := [lightAt 1, lightAt 2, lightAt 3, lightAt 4, lightAt 5]
                      , AmbientLight := ⟨7, 8, 9⟩ }

/-!
Helper lemmas.
-/

/-- Filtering an ordered insertion by a predicate whose holders are mutually
related: the inserted element lands in front of every element satisfying the
predicate (it cannot walk past one), so the filtered result is the filtered
list with the element prepended when it satisfies the predicate. -/
theorem filter_orderedInsert_of_ties {α : Type} (r : α → α → Prop) [DecidableRel r]
    (p : α → Bool) (a : α) :
    ∀ l : List α, (∀ x y, p x = true → p y = true → r x y) →
      (List.orderedInsert r a l).filter p =
        if p a then a :: l.filter p else l.filter p
  | [], _ => by
    cases hpa : p a <;> simp [List.orderedInsert, List.filter, hpa]
  | b :: bs, hrel => by
    by_cases hab : r a b
    · simp only [List.orderedInsert, if_pos hab]
      cases hpa : p a <;> cases hpb : p b <;> simp [List.filter_cons, hpa, hpb]
    · simp only [List.orderedInsert, if_neg hab]
      have ih := filter_orderedInsert_of_ties r p a bs hrel
      cases hpb : p b
      · simp [List.filter_cons, hpb, ih]
      · cases hpa : p a
        · simp [List.filter_cons, hpb, hpa, ih]
        · exact absurd (hrel a b hpa hpb) hab

/-- Stability of insertion sort, stated through filters: the sublist of elements
satisfying a predicate whose holders are mutually related (for the distance
sorts: the nodes at one fixed distance) is unchanged by sorting. -/
theorem filter_insertionSort_of_ties {α : Type} (r : α → α → Prop) [DecidableRel r]
    (p : α → Bool) (hrel : ∀ x y, p x = true → p y = true → r x y) :
    ∀ l : List α, (l.insertionSort r).filter p = l.filter p
  | [] => rfl
  | a :: l => by
    rw [List.insertionSort, filter_orderedInsert_of_ties r p a _ hrel,
        filter_insertionSort_of_ties r p hrel l]
    cases hpa : p a <;> simp [List.filter_cons, hpa]

/-- Sortedness of insertion sort for a total and transitive relation, in
`Pairwise` form. -/
theorem pairwise_insertionSort_of_total_trans {α : Type} (r : α → α → Prop) [DecidableRel r]
    (htot : ∀ a b, r a b ∨ r b a) (htrans : ∀ a b c, r a b → r b c → r a c) (l : List α) :
    List.Pairwise r (l.insertionSort r) := by
  haveI : IsTotal α r := ⟨htot⟩
  haveI : IsTrans α r := ⟨fun a b c => htrans a b c⟩
  exact List.sorted_insertionSort r l

/-- An entry whose deadline has not passed is kept by the deletion walk. -/
theorem walk_entry_kept (now : Nat) (e : DeletionEntry) (hkeep : ¬e.timeAfterToDelete < now)
    (l : List DeletionEntry) : ∀ (pm : List (Nat × Nat)) (cw : Option (List Nat)),
    e ∈ l → e ∈ (clearDeletionListwalk false now l pm cw).1 := by
  induction l with
  | nil =>
    intro pm cw he
    cases he
  | cons a rest ih =>
    intro pm cw he
    by_cases hc : a.timeAfterToDelete < now
    · have he2 : e ∈ rest := by
        rcases List.mem_cons.1 he with rfl | h2
        · exact absurd hc hkeep
        · exact h2
      simp only [clearDeletionListwalk, hc, decide_True, Bool.false_or, if_true]
      exact ih _ _ he2
    · simp only [clearDeletionListwalk, hc, decide_False, Bool.false_or, if_false]
      rcases List.mem_cons.1 he with rfl | h2
      · exact List.mem_cons_self _ _
      · exact List.mem_cons_of_mem a (ih pm cw h2)

/-- A parent edge whose child is not deleted by any overdue entry survives the
deletion walk. -/
theorem walk_parent_kept (now : Nat) (n p : Nat) (l : List DeletionEntry) :
    ∀ (pm : List (Nat × Nat)) (cw : Option (List Nat)), (n, p) ∈ pm →
      (∀ e2 ∈ l, e2.timeAfterToDelete < now → e2.node.nid ≠ n) →
      (n, p) ∈ (clearDeletionListwalk false now l pm cw).2.1 := by
  induction l with
  | nil =>
    intro pm cw hin _
    exact hin
  | cons a rest ih =>
    intro pm cw hin hno
    by_cases hc : a.timeAfterToDelete < now
    · have hane : a.node.nid ≠ n := hno a (List.mem_cons_self a rest) hc
      simp only [clearDeletionListwalk, hc, decide_True, Bool.false_or, if_true]
      refine ih _ _ (List.mem_filter.2 ⟨hin, ?_⟩) (fun e2 he2 => hno e2 (List.mem_cons_of_mem a he2))
      simp only [bne_iff_ne]
      exact Ne.symm hane
    · simp only [clearDeletionListwalk, hc, decide_False, Bool.false_or, if_false]
      exact ih pm cw hin (fun e2 he2 => hno e2 (List.mem_cons_of_mem a he2))

/-- The deletion walk only ever removes parent edges. -/
theorem walk_parent_subset (d : Bool) (now : Nat) (l : List DeletionEntry) :
    ∀ (pm : List (Nat × Nat)) (cw : Option (List Nat)) (x : Nat × Nat),
      x ∈ (clearDeletionListwalk d now l pm cw).2.1 → x ∈ pm := by
  induction l with
  | nil =>
    intro pm cw x hx
    exact hx
  | cons a rest ih =>
    intro pm cw x hx
    by_cases hc : (d || decide (a.timeAfterToDelete < now)) = true
    · simp only [clearDeletionListwalk, hc, if_true] at hx
      exact (List.mem_filter.1 (ih _ _ x hx)).1
    · simp only [clearDeletionListwalk, hc, if_false] at hx
      exact ih _ _ x hx

/-- After the walk removes an overdue entry, no parent edge of its node
remains. -/
theorem walk_parent_removed (now : Nat) (e : DeletionEntry)
    (hdel : e.timeAfterToDelete < now) (l : List DeletionEntry) :
    ∀ (pm : List (Nat × Nat)) (cw : Option (List Nat)), e ∈ l →
      ∀ p, (e.node.nid, p) ∉ (clearDeletionListwalk false now l pm cw).2.1 := by
  induction l with
  | nil =>
    intro pm cw he
    cases he
  | cons a rest ih =>
    intro pm cw he p hmem
    by_cases hc : a.timeAfterToDelete < now
    · simp only [clearDeletionListwalk, hc, decide_True, Bool.false_or, if_true] at hmem
      rcases List.mem_cons.1 he with rfl | h2
      · have h1 := walk_parent_subset false now rest _ _ _ hmem
        have h2 := (List.mem_filter.1 h1).2
        simp at h2
      · exact ih _ _ h2 p hmem
    · rcases List.mem_cons.1 he with rfl | h2
      · exact absurd hdel hc
      · simp only [clearDeletionListwalk, hc, decide_False, Bool.false_or, if_false] at hmem
        exact ih pm cw h2 p hmem

/-- The deletion walk only ever removes selectors from the collision world (and
keeps it present). -/
theorem walk_cw_some (now : Nat) (l : List DeletionEntry) :
    ∀ (pm : List (Nat × Nat)) (sels : List Nat),
      ∃ sels2, (clearDeletionListwalk false now l pm (some sels)).2.2.1 = some sels2 ∧
        ∀ x ∈ sels2, x ∈ sels := by
  induction l with
  | nil =>
    intro pm sels
    exact ⟨sels, rfl, fun x hx => hx⟩
  | cons a rest ih =>
    intro pm sels
    by_cases hc : a.timeAfterToDelete < now
    · cases hsel : a.node.Selector with
      | none =>
        simp only [clearDeletionListwalk, hc, decide_True, Bool.false_or, if_true, hsel]
        exact ih _ _
      | some selA =>
        simp only [clearDeletionListwalk, hc, decide_True, Bool.false_or, if_true, hsel]
        obtain ⟨sels2, h1, h2⟩ := ih (pm.filter (fun pr => pr.1 != a.node.nid))
          (sels.filter (fun x => x != selA))
        exact ⟨sels2, h1, fun x hx => (List.mem_filter.1 (h2 x hx)).1⟩
    · simp only [clearDeletionListwalk, hc, decide_False, Bool.false_or, if_false]
      exact ih pm sels

/-- After the walk removes an overdue entry whose node carries a selector, that
selector is gone from the collision world. -/
theorem walk_selector_removed (now : Nat) (e : DeletionEntry) (sel : Nat)
    (hdel : e.timeAfterToDelete < now) (hsel : e.node.Selector = some sel)
    (l : List DeletionEntry) :
    ∀ (pm : List (Nat × Nat)) (sels : List Nat), e ∈ l →
      ∃ sels2, (clearDeletionListwalk false now l pm (some sels)).2.2.1 = some sels2 ∧
        sel ∉ sels2 := by
  induction l with
  | nil =>
    intro pm sels he
    cases he
  | cons a rest ih =>
    intro pm sels he
    by_cases hc : a.timeAfterToDelete < now
    · rcases List.mem_cons.1 he with rfl | h2
      · simp only [clearDeletionListwalk, hc, decide_True, Bool.false_or, if_true, hsel]
        obtain ⟨sels2, h1, h2⟩ := walk_cw_some now rest
          (pm.filter (fun pr => pr.1 != e.node.nid)) (sels.filter (fun x => x != sel))
        refine ⟨sels2, h1, fun hmem => ?_⟩
        have h3 := (List.mem_filter.1 (h2 sel hmem)).2
        simp at h3
      · cases hselA : a.node.Selector with
        | none =>
          simp only [clearDeletionListwalk, hc, decide_True, Bool.false_or, if_true, hselA]
          exact ih _ _ h2
        | some selA =>
          simp only [clearDeletionListwalk, hc, decide_True, Bool.false_or, if_true, hselA]
          exact ih _ _ h2
    · rcases List.mem_cons.1 he with rfl | h2
      · exact absurd hdel hc
      · simp only [clearDeletionListwalk, hc, decide_False, Bool.false_or, if_false]
        exact ih pm sels h2

/-- Every entry the walk keeps has a deadline that has not strictly passed. -/
theorem walk_kept_entries (now : Nat) (l : List DeletionEntry) :
    ∀ (pm : List (Nat × Nat)) (cw : Option (List Nat)) (x : DeletionEntry),
      x ∈ (clearDeletionListwalk false now l pm cw).1 → ¬x.timeAfterToDelete < now := by
  induction l with
  | nil =>
    intro pm cw x hx
    cases hx
  | cons a rest ih =>
    intro pm cw x hx
    by_cases hc : a.timeAfterToDelete < now
    · simp only [clearDeletionListwalk, hc, decide_True, Bool.false_or, if_true] at hx
      exact ih _ _ x hx
    · simp only [clearDeletionListwalk, hc, decide_False, Bool.false_or, if_false] at hx
      rcases List.mem_cons.1 hx with rfl | h2
      · exact hc
      · exact ih pm cw x h2

/-- The deletion flush leaves the active camera untouched. -/
theorem clearDeletionList_ActiveCamera (s : Scene) (deleteAll : Bool) (now : Nat) :
    (s.clearDeletionList deleteAll now).1.ActiveCamera = s.ActiveCamera := by
  unfold Scene.clearDeletionList
  split <;> rfl

/-- The deletion flush leaves the redraw mode untouched. -/
theorem clearDeletionList_RedrawMode (s : Scene) (deleteAll : Bool) (now : Nat) :
    (s.clearDeletionList deleteAll now).1.RedrawMode = s.RedrawMode := by
  unfold Scene.clearDeletionList
  split <;> rfl

/-- Index re-winding preserves the index count. -/
theorem rewindIndices_length : ∀ l : List Nat, (rewindIndices l).length = l.length
  | _ :: _ :: _ :: rest => by
    simp [rewindIndices, rewindIndices_length rest]
  | [_, _] => by simp [rewindIndices]
  | [_] => rfl
  | [] => rfl

/-- On every full triple, re-winding keeps the first index and swaps the second
and third (each reduced to 16 bits by the unsigned short store). -/
theorem rewindIndices_triple : ∀ (l : List Nat) (t : Nat), 3 * t + 2 < l.length →
    (rewindIndices l).getD (3 * t) 0 = toUint16 (l.getD (3 * t) 0) ∧
    (rewindIndices l).getD (3 * t + 1) 0 = toUint16 (l.getD (3 * t + 2) 0) ∧
    (rewindIndices l).getD (3 * t + 2) 0 = toUint16 (l.getD (3 * t + 1) 0)
  | [], t, h => by simp only [List.length_nil] at h; omega
  | [_], t, h => by simp only [List.length_cons, List.length_nil] at h; omega
  | [_, _], t, h => by simp only [List.length_cons, List.length_nil] at h; omega
  | i0 :: i1 :: i2 :: rest, 0, _ => ⟨rfl, rfl, rfl⟩
  | i0 :: i1 :: i2 :: rest, t + 1, h => by
    have h2 : 3 * t + 2 < rest.length := by
      simp only [List.length_cons] at h
      omega
    have ih := rewindIndices_triple rest t h2
    have key : ∀ (a b c : Nat) (L : List Nat) (n : Nat),
        (a :: b :: c :: L).getD (n + 3) 0 = L.getD n 0 := fun a b c L n => rfl
    have hrw : rewindIndices (i0 :: i1 :: i2 :: rest) =
        toUint16 i0 :: toUint16 i2 :: toUint16 i1 :: rewindIndices rest := rfl
    have e0 : 3 * (t + 1) = 3 * t + 3 := by ring
    have e1 : 3 * (t + 1) + 1 = 3 * t + 1 + 3 := by ring
    have e2 : 3 * (t + 1) + 2 = 3 * t + 2 + 3 := by ring
    refine ⟨?_, ?_, ?_⟩
    · rw [hrw, e0, key, key]
      exact ih.1
    · rw [hrw, e1, e2, key, key]
      exact ih.2.1
    · rw [hrw, e2, e1, key, key]
      exact ih.2.2

/-- An in-bounds `getD` entry of a list is one of its elements. -/
theorem getD_mem_of_lt (l : List Nat) (n : Nat) (h : n < l.length) : l.getD n 0 ∈ l := by
  rw [List.getD_eq_getElem l 0 h]
  exact List.getElem_mem h

/-- A list of length four is an explicit four-element list. -/
theorem exists_cons4 {α : Type} (l : List α) (h : l.length = 4) :
    ∃ a b c d, l = [a, b, c, d] := by
  rcases l with _ | ⟨a, l⟩
  · simp only [List.length_nil] at h
    omega
  rcases l with _ | ⟨b, l⟩
  · simp only [List.length_cons, List.length_nil] at h
    omega
  rcases l with _ | ⟨c, l⟩
  · simp only [List.length_cons, List.length_nil] at h
    omega
  rcases l with _ | ⟨d, l⟩
  · simp only [List.length_cons, List.length_nil] at h
    omega
  rcases l with _ | ⟨e, l⟩
  · exact ⟨a, b, c, d, rfl⟩
  · simp only [List.length_cons] at h
    omega

/-- Structure of an array packed as four four-component chunks plus a tail (the
shape both light uniform arrays take): slot `i` is chunk `i`, and dropping the
sixteen chunk entries leaves the tail. -/
theorem slot4_flatMap_range4 (f : Nat → List Rat) (tail : List Rat)
    (hlen : ∀ j, j < 4 → (f j).length = 4) :
    (∀ i, i < 4 → slot4 ((List.range 4).flatMap f ++ tail) i = f i) ∧
    ((List.range 4).flatMap f ++ tail).drop 16 = tail ∧
    ((List.range 4).flatMap f).length = 16 := by
  obtain ⟨a0, b0, c0, d0, h0⟩ := exists_cons4 (f 0) (hlen 0 (by omega))
  obtain ⟨a1, b1, c1, d1, h1⟩ := exists_cons4 (f 1) (hlen 1 (by omega))
  obtain ⟨a2, b2, c2, d2, h2⟩ := exists_cons4 (f 2) (hlen 2 (by omega))
  obtain ⟨a3, b3, c3, d3, h3⟩ := exists_cons4 (f 3) (hlen 3 (by omega))
  have hexp : (List.range 4).flatMap f =
      [a0, b0, c0, d0, a1, b1, c1, d1, a2, b2, c2, d2, a3, b3, c3, d3] := by
    have hstep : (List.range 4).flatMap f = f 0 ++ (f 1 ++ (f 2 ++ (f 3 ++ []))) := rfl
    rw [hstep, h0, h1, h2, h3]
    rfl
  refine ⟨?_, ?_, ?_⟩
  · intro i hi
    interval_cases i
    · rw [hexp, h0]
      exact rfl
    · rw [hexp, h1]
      exact rfl
    · rw [hexp, h2]
      exact rfl
    · rw [hexp, h3]
      exact rfl
  · rw [hexp]
    exact rfl
  · rw [hexp]
    exact rfl

/-- The light uniform computation depends only on the World matrix, the ambient
light, the light list and the directional light of the renderer (in particular
not on the buffer-handle counter a resource creation advances). -/
theorem setDynamicLights_congr (r1 r2 : Renderer) (u v : Bool)
    (hW : r1.World = r2.World) (hA : r1.AmbientLight = r2.AmbientLight)
    (hL : r1.Lights = r2.Lights) (hD : r1.DirectionalLight = r2.DirectionalLight) :
    r1.setDynamicLightsIntoConstants u v = r2.setDynamicLightsIntoConstants u v := by
  unfold Renderer.setDynamicLightsIntoConstants
  rw [hW, hA, hL, hD]

/-!
Claim theorems.
-/

/-- C1: the public constant `CL3D.Scene.REDRAW_WHEN_CAM_MOVED` is 2, the value
`doAnimate` interprets as `REDRAW_EVERY_FRAME` (its camera-moved branch tests
`RedrawMode == 0`). Consequently, in a scene configured through
`setRedrawMode(CL3D.Scene.REDRAW_WHEN_CAM_MOVED)` whose camera View times
Projection product equals the stored one and with no animator change, no
finished texture load, no pending force-redraw and no scripting redraw,
`doAnimate` still returns true — the redraw is not suppressed, contradicting
the claim (and the own documentation of the constant). With the mode value 0 that
`doAnimate` actually treats as camera-moved, the claimed behavior does hold:
no redraw while unchanged, `forceRedrawNextFrame` yields exactly one redraw,
and the consumed one-shot flag suppresses the next tick again. -/
theorem Claims.redrawWhenCamMovedConstantIsEveryFrame :
    Scene.REDRAW_WHEN_CAM_MOVED = Scene.REDRAW_EVERY_FRAME ∧
    sceneUnchangedCam.HasViewChangedSinceLastRedraw = false ∧
    (sceneUnchangedCam.doAnimate (some sampleRenderer) 5 false false).2.2 = true ∧
    ((sceneUnchangedCam.setRedrawMode 0).doAnimate (some sampleRenderer) 5 false false).2.2 = false ∧
    (((sceneUnchangedCam.setRedrawMode 0).forceRedrawNextFrame).doAnimate
      (some sampleRenderer) 5 false false).2.2 = true ∧
    ((((sceneUnchangedCam.setRedrawMode 0).forceRedrawNextFrame).doAnimate
      (some sampleRenderer) 5 false false).1.doAnimate (some sampleRenderer) 6 false false).2.2 = false := by
  refine ⟨rfl, ?_, ?_, ?_, ?_, ?_⟩ <;> with_unfolding_all decide

/-- C8: on a redrawn frame the four per-category lists are indeed rebuilt from
scratch, but the skybox slot is not: `doAnimate` nulls `TheSkyBoxSceneNode`
while registration and rendering use the distinct field `SkyBoxSceneNode`,
which nothing resets. A skybox (node 7) registered on frame one and not
registered on frame two is still rendered on frame two, while the default node
(node 1) from frame one correctly disappears. -/
theorem Claims.staleSkyboxRenderedWithoutRegistration :
    frameOne.2.2 = [7, 1] ∧
    (frameOne.1.doAnimate (some sampleRenderer) 100 false false).2.2 = true ∧
    (frameOne.1.doAnimate (some sampleRenderer) 100 false false).1.TheSkyBoxSceneNode = none ∧
    (frameOne.1.doAnimate (some sampleRenderer) 100 false false).1.SkyBoxSceneNode = some skyboxNode ∧
    ((frameOne.1.doAnimate (some sampleRenderer) 100 false false).1.drawAll sampleRenderer []).2.2 = [7] := by
  refine ⟨?_, ?_, ?_, ?_, ?_⟩ <;> with_unfolding_all decide

/-- C9 counterexample: creating the device resource of a mesh buffer with empty
vertex and index lists is not a no-op in this version of
`createRendererNativeArray`: it attaches a (zero length) device resource and
allocates six device buffers. -/
theorem Claims.createOnEmptyBufferAllocates :
    (sampleRenderer.createRendererNativeArray emptyBuffer).2.RendererNativeArray.isSome = true ∧
    (sampleRenderer.createRendererNativeArray emptyBuffer).1.nextBufferId =
      sampleRenderer.nextBufferId + 6 := by
  exact ⟨by with_unfolding_all decide, by with_unfolding_all decide⟩

/-- C5 counterexample: after shrinking a buffer from two vertices to one (so
capacity is not exceeded and the in-place update path runs), the device
position array keeps the stale tail of the old data and therefore differs from
what a from-scratch create on the same data would produce. -/
theorem Claims.updateShrunkDiffersFromCreate :
    ((sampleRenderer.updateRendererNativeArray shrunkBuffer).2.RendererNativeArray.map
      (fun na => na.positionsArray)) ≠
    ((sampleRenderer.createRendererNativeArray
        { shrunkBuffer with RendererNativeArray := none }).2.RendererNativeArray.map
      (fun na => na.positionsArray)) := by
  with_unfolding_all decide

/-- C7 counterexample: `clearDeletionList` removes an entry only when its
deadline is strictly below the current time. A node queued at time 0 with a
500 ms delay is still attached to its parent, still in the deletion queue and
still indexed by the collision world on a tick at exactly time 500 — the first
tick at-or-after the deadline — contradicting the claim. -/
theorem Claims.deletionAtExactDeadlineKeepsNode :
    (sceneWithDeletion.clearDeletionList false 500).1.ParentOf = [(42, 0)] ∧
    (sceneWithDeletion.clearDeletionList false 500).1.DeletionList = sceneWithDeletion.DeletionList ∧
    (sceneWithDeletion.clearDeletionList false 500).1.CollisionWorld = some [9, 11] ∧
    (sceneWithDeletion.clearDeletionList false 500).2 = false := by
  refine ⟨?_, ?_, ?_, ?_⟩ <;> with_unfolding_all decide

/-- C6: the transparent render list is sorted so that a node farther from the
camera (by squared distance of its absolute position) always precedes a nearer
one, the sort is stable on ties (the sublist at any fixed distance keeps
registration order), and in the concrete scenario — camera at the origin, three
transparent nodes at distances 1, 5, 5 registered in that order — the render
order is node 2, node 3, node 1: the distance-1 node last and the two
equal-distance nodes in registration order. -/
theorem Claims.transparentNodesRenderedFarthestFirst :
    (∀ (camPos : Vect3d) (l : List SNode),
      List.Pairwise
        (fun a b => camPos.getDistanceFromSQ b.absPos ≤ camPos.getDistanceFromSQ a.absPos)
        (sortTransparentFarthestFirst camPos l)) ∧
    (∀ (camPos : Vect3d) (l : List SNode) (d : Rat),
      (sortTransparentFarthestFirst camPos l).filter
          (fun n => decide (camPos.getDistanceFromSQ n.absPos = d)) =
        l.filter (fun n => decide (camPos.getDistanceFromSQ n.absPos = d))) ∧
    (sceneWithCamera.drawAll sampleRenderer
      [(transparentNode1, Scene.RENDER_MODE_TRANSPARENT),
       (transparentNode2, Scene.RENDER_MODE_TRANSPARENT),
       (transparentNode3, Scene.RENDER_MODE_TRANSPARENT)]).2.2 = [2, 3, 1] := by
  refine ⟨?_, ?_, ?_⟩
  · intro camPos l
    exact pairwise_insertionSort_of_total_trans
      (fun a b : SNode => camPos.getDistanceFromSQ b.absPos ≤ camPos.getDistanceFromSQ a.absPos)
      (fun a b => le_total _ _) (fun a b c hab hbc => le_trans hbc hab) l
  · intro camPos l d
    refine filter_insertionSort_of_ties
      (fun a b : SNode => camPos.getDistanceFromSQ b.absPos ≤ camPos.getDistanceFromSQ a.absPos)
      _ (fun x y hx hy => ?_) l
    have hx2 : camPos.getDistanceFromSQ x.absPos = d := of_decide_eq_true hx
    have hy2 : camPos.getDistanceFromSQ y.absPos = d := of_decide_eq_true hy
    show camPos.getDistanceFromSQ y.absPos ≤ camPos.getDistanceFromSQ x.absPos
    rw [hx2, hy2]
  · with_unfolding_all decide

/-- Witness for C6, instantiating the general sortedness part at the concrete
three-node scenario. -/
theorem Claims.transparentNodesRenderedFarthestFirst_witness :
    List.Pairwise
      (fun a b => Vect3d.getDistanceFromSQ ⟨0, 0, 0⟩ b.absPos ≤
        Vect3d.getDistanceFromSQ ⟨0, 0, 0⟩ a.absPos)
      (sortTransparentFarthestFirst ⟨0, 0, 0⟩
        [transparentNode1, transparentNode2, transparentNode3]) :=
  Claims.transparentNodesRenderedFarthestFirst.1 ⟨0, 0, 0⟩
    [transparentNode1, transparentNode2, transparentNode3]

/-- C10: without an active camera `HasViewChangedSinceLastRedraw` reports true
on every tick, so `doAnimate` decides to redraw under each of the three redraw
mode values 0, 1 and 2, whatever the animator and texture state. -/
theorem Claims.noCameraAlwaysRedraws (s : Scene) (renderer : Option Renderer) (now : Nat)
    (animChanged scriptRedraw : Bool)
    (hcam : s.ActiveCamera = none)
    (hmode : s.RedrawMode = 0 ∨ s.RedrawMode = 1 ∨ s.RedrawMode = 2) :
    s.HasViewChangedSinceLastRedraw = true ∧
    (s.doAnimate renderer now animChanged scriptRedraw).2.2 = true := by
  obtain ⟨amb, cw, cam, force, lvp, tsb, sb, mode, snr, snrt, ltr, o2r, ncr, uc, st, dl, po⟩ := s
  replace hcam : cam = none := hcam
  subst hcam
  replace hmode : mode = 0 ∨ mode = 1 ∨ mode = 2 := hmode
  refine ⟨by simp [Scene.HasViewChangedSinceLastRedraw], ?_⟩
  by_cases hst : st = 0 <;>
    obtain h | h | h := hmode <;>
      subst h <;>
        cases renderer <;>
          simp [Scene.doAnimate, Scene.HasViewChangedSinceLastRedraw,
                clearDeletionList_ActiveCamera, clearDeletionList_RedrawMode,
                Renderer.getAndResetTextureWasLoadedFlag, hst]

/-- Witness for C10: the fresh scene state (no active camera) under the
scene-changed redraw mode, with nothing changed at all, still decides to
redraw. -/
theorem Claims.noCameraAlwaysRedraws_witness :
    ({ Scene.init with RedrawMode := 1 } : Scene).HasViewChangedSinceLastRedraw = true ∧
    (({ Scene.init with RedrawMode := 1 } : Scene).doAnimate none 3 false false).2.2 = true :=
  Claims.noCameraAlwaysRedraws _ none 3 false false rfl (Or.inr (Or.inl rfl))

/-- C2: for a nonempty mesh buffer, creating the device resource (lazily, in
`drawMeshBuffer`) and drawing with no index-count override issues one
triangle-list draw of exactly the CPU-side index count, and the device index
array carries, for every triangle, the triple (first, third, second) of the
CPU-side triple — the second and third index swapped. The same swap is produced
by the full index regeneration when an update finds the buffer grown beyond the
device capacity (that path degrades to the same full create). -/
theorem Claims.createThenDrawRewindsIndices (r : Renderer) (buf : MeshBuffer) (p : Program)
    (hv : buf.Vertices ≠ []) (hi : buf.Indices ≠ [])
    (hna : buf.RendererNativeArray = none)
    (hp : r.currentGLProgram = some p)
    (hbound : ∀ i ∈ buf.Indices, i < 65536) :
    ∃ arr : List Nat,
      ((r.drawMeshBuffer buf none).2.2).map (fun dc => (dc.mode, dc.indexCountUsed, dc.indexArray)) =
        some (GL_TRIANGLES, buf.Indices.length, arr) ∧
      arr.length = buf.Indices.length ∧
      (∀ t, 3 * t + 2 < buf.Indices.length →
        arr.getD (3 * t) 0 = buf.Indices.getD (3 * t) 0 ∧
        arr.getD (3 * t + 1) 0 = buf.Indices.getD (3 * t + 2) 0 ∧
        arr.getD (3 * t + 2) 0 = buf.Indices.getD (3 * t + 1) 0) ∧
      ∀ na : NativeArray,
        na.vertexCount < buf.Vertices.length ∨ na.indexCount < buf.Indices.length →
        ((r.updateRendererNativeArray
            { buf with RendererNativeArray := some na }).2.RendererNativeArray.map
          (fun na2 => na2.indexArray)) = some arr := by
  have htriple : ∀ t, 3 * t + 2 < buf.Indices.length →
      (rewindIndices buf.Indices).getD (3 * t) 0 = buf.Indices.getD (3 * t) 0 ∧
      (rewindIndices buf.Indices).getD (3 * t + 1) 0 = buf.Indices.getD (3 * t + 2) 0 ∧
      (rewindIndices buf.Indices).getD (3 * t + 2) 0 = buf.Indices.getD (3 * t + 1) 0 := by
    intro t ht
    have base := rewindIndices_triple buf.Indices t ht
    have hm : ∀ n, n < buf.Indices.length → toUint16 (buf.Indices.getD n 0) = buf.Indices.getD n 0 := by
      intro n hn
      exact Nat.mod_eq_of_lt (hbound _ (getD_mem_of_lt _ _ hn))
    refine ⟨?_, ?_, ?_⟩
    · rw [base.1, hm _ (by omega)]
    · rw [base.2.1, hm _ (by omega)]
    · rw [base.2.2, hm _ (by omega)]
  have hv0 : ¬(buf.Vertices.length = 0) := by
    simpa [List.length_eq_zero] using hv
  have hi0 : ¬(buf.Indices.length = 0) := by
    simpa [List.length_eq_zero] using hi
  refine ⟨rewindIndices buf.Indices, ?_, rewindIndices_length _, htriple, ?_⟩
  · simp [Renderer.drawMeshBuffer, hna, Renderer.createRendererNativeArray,
          Renderer.drawWebGlStaticGeometry, hp]
  · intro na hgrow
    have hcond : (decide (na.vertexCount < buf.Vertices.length) ||
        decide (na.indexCount < buf.Indices.length)) = true := by
      rcases hgrow with hg | hg <;> simp [hg]
    simp [Renderer.updateRendererNativeArray, hv0, hi0, hcond,
          Renderer.createRendererNativeArray]

/-- Witness for C2: for the one-triangle buffer with indices [0, 1, 2], the draw
issues 3 indices and the device index array is [0, 2, 1]. -/
theorem Claims.createThenDrawRewindsIndices_witness :
    (∃ arr : List Nat,
      ((sampleRenderer.drawMeshBuffer sampleBuffer none).2.2).map
          (fun dc => (dc.mode, dc.indexCountUsed, dc.indexArray)) =
        some (GL_TRIANGLES, sampleBuffer.Indices.length, arr) ∧
      arr.length = sampleBuffer.Indices.length ∧
      (∀ t, 3 * t + 2 < sampleBuffer.Indices.length →
        arr.getD (3 * t) 0 = sampleBuffer.Indices.getD (3 * t) 0 ∧
        arr.getD (3 * t + 1) 0 = sampleBuffer.Indices.getD (3 * t + 2) 0 ∧
        arr.getD (3 * t + 2) 0 = sampleBuffer.Indices.getD (3 * t + 1) 0) ∧
      ∀ na : NativeArray,
        na.vertexCount < sampleBuffer.Vertices.length ∨
          na.indexCount < sampleBuffer.Indices.length →
        ((sampleRenderer.updateRendererNativeArray
            { sampleBuffer with RendererNativeArray := some na }).2.RendererNativeArray.map
          (fun na2 => na2.indexArray)) = some arr) ∧
    ((sampleRenderer.drawMeshBuffer sampleBuffer none).2.2).map (fun dc => dc.indexArray) =
      some [0, 2, 1] :=
  ⟨Claims.createThenDrawRewindsIndices sampleRenderer sampleBuffer sampleProgram
      (by with_unfolding_all decide) (by with_unfolding_all decide) rfl rfl
      (by with_unfolding_all decide),
   by with_unfolding_all decide⟩

/-- C4: when the vertex or index count has grown beyond the stored device
capacity, the size-preserving update is literally a fresh create on the grown
data with the old resource discarded: renderer state and buffer after the
update are identical to those produced by `createRendererNativeArray` on the
same buffer stripped of its resource, so every attribute array and the re-wound
index array are rebuilt from the CPU data and nothing of the old device data is
migrated. -/
theorem Claims.updateGrownEqualsCreate (r : Renderer) (buf : MeshBuffer) (na : NativeArray)
    (hna : buf.RendererNativeArray = some na)
    (hv : buf.Vertices ≠ []) (hi : buf.Indices ≠ [])
    (hgrow : na.vertexCount < buf.Vertices.length ∨ na.indexCount < buf.Indices.length) :
    r.updateRendererNativeArray buf =
      r.createRendererNativeArray { buf with RendererNativeArray := none } := by
  have hv0 : ¬(buf.Vertices.length = 0) := by simpa [List.length_eq_zero] using hv
  have hi0 : ¬(buf.Indices.length = 0) := by simpa [List.length_eq_zero] using hi
  have hcond : (decide (na.vertexCount < buf.Vertices.length) ||
      decide (na.indexCount < buf.Indices.length)) = true := by
    rcases hgrow with hg | hg <;> simp [hg]
  simp [Renderer.updateRendererNativeArray, hna, hv0, hi0, hcond]

/-- Witness for C4: growing the two-vertex buffer to three vertices and six
indices makes the update coincide with a fresh create, whose re-wound index
array for [0, 1, 2, 2, 1, 0] is [0, 2, 1, 2, 0, 1]. -/
theorem Claims.updateGrownEqualsCreate_witness :
    sampleRenderer.updateRendererNativeArray grownBuffer =
      sampleRenderer.createRendererNativeArray { grownBuffer with RendererNativeArray := none } ∧
    ((sampleRenderer.updateRendererNativeArray grownBuffer).2.RendererNativeArray.map
      (fun na => na.indexArray)) = some [0, 2, 1, 2, 0, 1] :=
  ⟨Claims.updateGrownEqualsCreate sampleRenderer grownBuffer createdTwoVertexResource
      (by with_unfolding_all rfl) (by with_unfolding_all decide) (by with_unfolding_all decide)
      (Or.inl (by with_unfolding_all decide)),
   by with_unfolding_all decide⟩

/-- C5 (amended): when neither count has grown beyond the stored capacity, the
size-preserving update allocates nothing (the renderer state, including the
buffer-handle counter, is untouched) and keeps every device buffer handle of
the resource; it overwrites the first 3n position and 4n color entries
(n the new vertex count) with exactly the values a from-scratch create produces
on the same data, and when the vertex count equals the stored capacity the
position and color arrays coincide with those of a from-scratch create in
full. (For a shrunken buffer the stale tail entries beyond 3n and 4n remain,
so full content equality fails there — see the counterexample.) -/
theorem Claims.updateInPlaceKeepsHandles (r : Renderer) (buf : MeshBuffer) (na : NativeArray)
    (hna : buf.RendererNativeArray = some na)
    (hv : buf.Vertices ≠ []) (hi : buf.Indices ≠ [])
    (hfit : buf.Vertices.length ≤ na.vertexCount ∧ buf.Indices.length ≤ na.indexCount)
    (hlen : na.positionsArray.length = 3 * na.vertexCount ∧
            na.colorArray.length = 4 * na.vertexCount) :
    (r.updateRendererNativeArray buf).1 = r ∧
    ((r.createRendererNativeArray { buf with RendererNativeArray := none }).2.RendererNativeArray.map
      (fun naf => (naf.positionsArray, naf.colorArray))) =
      some (buildPositionsArray buf.Vertices, buildColorArray buf.Vertices) ∧
    ∃ na2 : NativeArray,
      (r.updateRendererNativeArray buf).2.RendererNativeArray = some na2 ∧
      na2.positionBuffer = na.positionBuffer ∧
      na2.texcoordsBuffer = na.texcoordsBuffer ∧
      na2.texcoordsBuffer2 = na.texcoordsBuffer2 ∧
      na2.normalBuffer = na.normalBuffer ∧
      na2.tangentBuffer = na.tangentBuffer ∧
      na2.binormalBuffer = na.binormalBuffer ∧
      na2.colorBuffer = na.colorBuffer ∧
      na2.indexBuffer = na.indexBuffer ∧
      na2.positionsArray =
        buildPositionsArray buf.Vertices ++ na.positionsArray.drop (3 * buf.Vertices.length) ∧
      na2.colorArray =
        buildColorArray buf.Vertices ++ na.colorArray.drop (4 * buf.Vertices.length) ∧
      (buf.Vertices.length = na.vertexCount →
        na2.positionsArray = buildPositionsArray buf.Vertices ∧
        na2.colorArray = buildColorArray buf.Vertices) := by
  have hv0 : ¬(buf.Vertices.length = 0) := by simpa [List.length_eq_zero] using hv
  have hi0 : ¬(buf.Indices.length = 0) := by simpa [List.length_eq_zero] using hi
  have hnogrow1 : ¬(na.vertexCount < buf.Vertices.length) := Nat.not_lt.2 hfit.1
  have hnogrow2 : ¬(na.indexCount < buf.Indices.length) := Nat.not_lt.2 hfit.2
  refine ⟨?_, ?_, ?_⟩
  · simp [Renderer.updateRendererNativeArray, hna, hv0, hi0, hnogrow1, hnogrow2]
  · simp [Renderer.createRendererNativeArray]
  · refine ⟨{ na with
        positionsArray :=
          buildPositionsArray buf.Vertices ++ na.positionsArray.drop (3 * buf.Vertices.length)
      , colorArray :=
          buildColorArray buf.Vertices ++ na.colorArray.drop (4 * buf.Vertices.length)
      , indexCount := buf.Indices.length
      , vertexCount := buf.Vertices.length }, ?_, rfl, rfl, rfl, rfl, rfl, rfl, rfl, rfl, rfl, rfl, ?_⟩
    · simp [Renderer.updateRendererNativeArray, hna, hv0, hi0, hnogrow1, hnogrow2]
    · intro hexact
      constructor
      · have : na.positionsArray.drop (3 * buf.Vertices.length) = [] :=
          List.drop_eq_nil_of_le (by rw [hlen.1, hexact])
        simp [this]
      · have : na.colorArray.drop (4 * buf.Vertices.length) = [] :=
          List.drop_eq_nil_of_le (by rw [hlen.2, hexact])
        simp [this]

/-- Witness for C5: updating the shrunken one-vertex buffer in place keeps the
renderer state and all handles and rewrites the first three position entries;
the stale tail [4, 5, 6] remains after the fresh [7, 8, 9]. -/
theorem Claims.updateInPlaceKeepsHandles_witness :
    (sampleRenderer.updateRendererNativeArray shrunkBuffer).1 = sampleRenderer ∧
    ∃ na2 : NativeArray,
      (sampleRenderer.updateRendererNativeArray shrunkBuffer).2.RendererNativeArray = some na2 ∧
      na2.positionBuffer = 1 ∧
      na2.indexBuffer = 6 ∧
      na2.positionsArray = [7, 8, 9, 4, 5, 6] := by
  have h := Claims.updateInPlaceKeepsHandles sampleRenderer shrunkBuffer createdTwoVertexResource
    (by with_unfolding_all rfl) (by with_unfolding_all decide) (by with_unfolding_all decide)
    (by refine ⟨?_, ?_⟩ <;> with_unfolding_all decide)
    (by refine ⟨?_, ?_⟩ <;> with_unfolding_all decide)
  obtain ⟨hr, -, na2, hsome, hpb, -, -, -, -, -, -, hib, hpos, -, -⟩ := h
  refine ⟨hr, na2, hsome, ?_, ?_, ?_⟩
  · rw [hpb]; with_unfolding_all decide
  · rw [hib]; with_unfolding_all decide
  · rw [hpos]; with_unfolding_all decide

/-- C9 (amended): on a mesh buffer with an empty vertex or index list the
create operation is not skipped — it attaches a device resource whose vertex
and index counts are the (zero) list lengths — but the subsequent draw issues a
zero-index draw call when the index list is empty, so nothing is drawn, and no
operation fails: the silent no-op on empty buffers is the size-preserving
update, not create. -/
theorem Claims.createOnEmptyStillDraws (r : Renderer) (buf : MeshBuffer) (p : Program)
    (hna : buf.RendererNativeArray = none)
    (hempty : buf.Vertices = [] ∨ buf.Indices = [])
    (hp : r.currentGLProgram = some p) :
    ((r.createRendererNativeArray buf).2.RendererNativeArray.map
      (fun na => (na.vertexCount, na.indexCount))) =
      some (buf.Vertices.length, buf.Indices.length) ∧
    (buf.Indices = [] →
      ((r.drawMeshBuffer buf none).2.2).map (fun dc => dc.indexCountUsed) = some 0) ∧
    r.updateRendererNativeArray buf = (r, buf) := by
  refine ⟨?_, ?_, ?_⟩
  · simp [Renderer.createRendererNativeArray, hna]
  · intro h0
    simp [Renderer.drawMeshBuffer, hna, Renderer.createRendererNativeArray,
          Renderer.drawWebGlStaticGeometry, hp, h0]
  · rcases hempty with h | h <;> simp [Renderer.updateRendererNativeArray, h]

/-- Witness for C9: the empty buffer gets a resource with counts (0, 0), its
draw issues zero indices, and the size-preserving update is the identity. -/
theorem Claims.createOnEmptyStillDraws_witness :
    ((sampleRenderer.createRendererNativeArray emptyBuffer).2.RendererNativeArray.map
      (fun na => (na.vertexCount, na.indexCount))) =
      some (emptyBuffer.Vertices.length, emptyBuffer.Indices.length) ∧
    (emptyBuffer.Indices = [] →
      ((sampleRenderer.drawMeshBuffer emptyBuffer none).2.2).map
        (fun dc => dc.indexCountUsed) = some 0) ∧
    sampleRenderer.updateRendererNativeArray emptyBuffer = (sampleRenderer, emptyBuffer) :=
  Claims.createOnEmptyStillDraws sampleRenderer emptyBuffer sampleProgram rfl (Or.inl rfl) rfl

/-- C3: the light uniform packing. The uploaded position array has exactly 16
entries (4 four-component slots), the color array exactly 20 (4 slots plus a
fifth carrying the ambient color); slot i is built from entry i of the
renderer light list — so with more than 4 registered lights only the first 4
are uploaded — and every slot beyond the list length is the deterministic off
light, with zero color components. A draw through `drawMeshBuffer` with a
bound program that has a light-positions uniform uploads exactly these arrays,
and the scene light pass hands the lights to the renderer sorted by ascending
squared distance from the camera when a camera exists (ties keep registration
order). -/
theorem Claims.lightConstantsPacking :
    (∀ (r : Renderer) (useWS useOld : Bool),
      (r.setDynamicLightsIntoConstants useWS useOld).1.length = 16 ∧
      (r.setDynamicLightsIntoConstants useWS useOld).2.length = 20 ∧
      (r.setDynamicLightsIntoConstants useWS useOld).2.drop 16 =
        [r.AmbientLight.R, r.AmbientLight.G, r.AmbientLight.B, 1] ∧
      (∀ i, i < 4 → ∀ l, r.Lights[i]? = some l →
        slot4 (r.setDynamicLightsIntoConstants useWS useOld).2 i =
          [l.Color.R, l.Color.G, l.Color.B, 1] ∧
        (slot4 (r.setDynamicLightsIntoConstants useWS useOld).1 i).getD 3 0 =
          (if useOld then 1 / (l.Radius * l.Radius) else l.Attenuation)) ∧
      (∀ i, i < 4 → r.Lights.length ≤ i →
        slot4 (r.setDynamicLightsIntoConstants useWS useOld).1 i = [1, 0, 0, 1] ∧
        slot4 (r.setDynamicLightsIntoConstants useWS useOld).2 i = [0, 0, 0, 1])) ∧
    (∀ (r : Renderer) (buf : MeshBuffer) (p : Program) (cnt : Option Nat),
      r.currentGLProgram = some p → p.locLightPositions = true →
      buf.RendererNativeArray = none → buf.Tangents = none →
      ((r.drawMeshBuffer buf cnt).2.2).map (fun dc => dc.lightUniforms) =
        some (some (r.setDynamicLightsIntoConstants false false))) ∧
    (∀ (camPos : Vect3d) (l : List SNode),
      List.Pairwise
        (fun a b => camPos.getDistanceFromSQ a.absPos ≤ camPos.getDistanceFromSQ b.absPos)
        (sortLightsNearestFirst camPos l) ∧
      ∀ d : Rat, (sortLightsNearestFirst camPos l).filter
          (fun n => decide (camPos.getDistanceFromSQ n.absPos = d)) =
        l.filter (fun n => decide (camPos.getDistanceFromSQ n.absPos = d))) := by
  refine ⟨?_, ?_, ?_⟩
  · intro r useWS useOld
    obtain ⟨mat, heq⟩ :
        ∃ mat, r.setDynamicLightsIntoConstants useWS useOld =
          ((List.range 4).flatMap (fun i => lightPositionSlot mat useOld r.Lights[i]?),
           (List.range 4).flatMap (fun i => lightColorSlot r.Lights[i]?) ++
             [r.AmbientLight.R, r.AmbientLight.G, r.AmbientLight.B, 1]) := ⟨_, rfl⟩
    have hlenP : ∀ j, j < 4 → (lightPositionSlot mat useOld r.Lights[j]?).length = 4 := by
      intro j _
      cases hc : r.Lights[j]? <;> rfl
    have hlenC : ∀ j, j < 4 → (lightColorSlot r.Lights[j]?).length = 4 := by
      intro j _
      cases hc : r.Lights[j]? <;> rfl
    obtain ⟨hslotP, -, hlen16P⟩ :=
      slot4_flatMap_range4 (fun i => lightPositionSlot mat useOld r.Lights[i]?) [] hlenP
    obtain ⟨hslotC, hdropC, hlen16C⟩ :=
      slot4_flatMap_range4 (fun i => lightColorSlot r.Lights[i]?)
        [r.AmbientLight.R, r.AmbientLight.G, r.AmbientLight.B, 1] hlenC
    simp only [List.append_nil] at hslotP
    have heqP : (r.setDynamicLightsIntoConstants useWS useOld).1 =
        (List.range 4).flatMap (fun i => lightPositionSlot mat useOld r.Lights[i]?) := by
      rw [heq]
    have heqC : (r.setDynamicLightsIntoConstants useWS useOld).2 =
        (List.range 4).flatMap (fun i => lightColorSlot r.Lights[i]?) ++
          [r.AmbientLight.R, r.AmbientLight.G, r.AmbientLight.B, 1] := by
      rw [heq]
    refine ⟨?_, ?_, ?_, ?_, ?_⟩
    · rw [heqP]
      exact hlen16P
    · rw [heqC]
      simp [List.length_append, hlen16C]
    · rw [heqC]
      exact hdropC
    · intro i hi l hl
      constructor
      · rw [heqC, hslotC i hi, hl]
        exact rfl
      · rw [heqP, hslotP i hi, hl]
        exact rfl
    · intro i hi hle
      have hnone : r.Lights[i]? = none := List.getElem?_eq_none hle
      constructor
      · rw [heqP, hslotP i hi, hnone]
        exact rfl
      · rw [heqC, hslotC i hi, hnone]
        exact rfl
  · intro r buf p cnt hp hlp hna htang
    simp only [Renderer.drawMeshBuffer, hna, Renderer.createRendererNativeArray,
               Renderer.drawWebGlStaticGeometry, hp, hlp, htang]
    simp [htang]
    exact setDynamicLights_congr _ _ _ _ rfl rfl rfl rfl
  · intro camPos l
    constructor
    · exact pairwise_insertionSort_of_total_trans
        (fun a b : SNode => camPos.getDistanceFromSQ a.absPos ≤ camPos.getDistanceFromSQ b.absPos)
        (fun a b => le_total _ _) (fun a b c hab hbc => le_trans hab hbc) l
    · intro d
      refine filter_insertionSort_of_ties
        (fun a b : SNode => camPos.getDistanceFromSQ a.absPos ≤ camPos.getDistanceFromSQ b.absPos)
        _ (fun x y hx hy => ?_) l
      have hx2 : camPos.getDistanceFromSQ x.absPos = d := of_decide_eq_true hx
      have hy2 : camPos.getDistanceFromSQ y.absPos = d := of_decide_eq_true hy
      show camPos.getDistanceFromSQ x.absPos ≤ camPos.getDistanceFromSQ y.absPos
      rw [hx2, hy2]

/-- Witness for C3 at the renderer with five registered lights: sixteen and
twenty entries, only the first four lights uploaded (the full color array is
listed), the ambient color in the fifth slot, and — on the light-free
renderer — the off light with zero color components in slot 0. -/
theorem Claims.lightConstantsPacking_witness :
    (rendererFiveLights.setDynamicLightsIntoConstants false false).1.length = 16 ∧
    (rendererFiveLights.setDynamicLightsIntoConstants false false).2.length = 20 ∧
    (rendererFiveLights.setDynamicLightsIntoConstants false false).2.drop 16 = [7, 8, 9, 1] ∧
    slot4 (rendererFiveLights.setDynamicLightsIntoConstants false false).2 0 = [1, 0, 0, 1] ∧
    (rendererFiveLights.setDynamicLightsIntoConstants false false).2 =
      [1, 0, 0, 1, 2, 0, 0, 1, 3, 0, 0, 1, 4, 0, 0, 1, 7, 8, 9, 1] ∧
    slot4 (sampleRenderer.setDynamicLightsIntoConstants false false).2 0 = [0, 0, 0, 1] := by
  have h5 := Claims.lightConstantsPacking.1 rendererFiveLights false false
  refine ⟨h5.1, h5.2.1, ?_, ?_, ?_, ?_⟩
  · rw [h5.2.2.1]
    with_unfolding_all decide
  · rw [(h5.2.2.2.1 0 (by omega) (lightAt 1) (by with_unfolding_all rfl)).1]
    with_unfolding_all decide
  · with_unfolding_all decide
  · have h0 := Claims.lightConstantsPacking.1 sampleRenderer false false
    exact (h0.2.2.2.2 0 (by omega) (by with_unfolding_all decide)).2

/-- C7 (amended): the pending-deletion flush removes a queued node only when
its deadline lies strictly below the tick time. While the tick time is at or
below the deadline (and no other queue entry for the same node is overdue) the
entry stays queued and the node stays attached to its parent; on a tick
strictly after the deadline the entry is removed, the node is detached from its
parent, and its selector is removed from the collision world. -/
theorem Claims.deletionQueueStrictDeadline (s : Scene) (e : DeletionEntry) (now : Nat)
    (he : e ∈ s.DeletionList) :
    (now ≤ e.timeAfterToDelete →
      (∀ e2 ∈ s.DeletionList, e2.node.nid = e.node.nid → now ≤ e2.timeAfterToDelete) →
      e ∈ (s.clearDeletionList false now).1.DeletionList ∧
      ∀ p, (e.node.nid, p) ∈ s.ParentOf →
        (e.node.nid, p) ∈ (s.clearDeletionList false now).1.ParentOf) ∧
    (e.timeAfterToDelete < now →
      e ∉ (s.clearDeletionList false now).1.DeletionList ∧
      (∀ p, (e.node.nid, p) ∉ (s.clearDeletionList false now).1.ParentOf) ∧
      ∀ sels sel, s.CollisionWorld = some sels → e.node.Selector = some sel →
        ∃ sels2, (s.clearDeletionList false now).1.CollisionWorld = some sels2 ∧
          sel ∉ sels2) := by
  have hne : s.DeletionList.isEmpty = false := by
    cases hl : s.DeletionList with
    | nil => rw [hl] at he; cases he
    | cons a rest => rfl
  have hred : s.clearDeletionList false now =
      (let res := clearDeletionListwalk false now s.DeletionList s.ParentOf s.CollisionWorld
       ({ s with DeletionList := res.1, ParentOf := res.2.1, CollisionWorld := res.2.2.1 },
        res.2.2.2)) := by
    unfold Scene.clearDeletionList
    rw [hne]
    rfl
  constructor
  · intro hkeep hall
    have hk : ¬e.timeAfterToDelete < now := Nat.not_lt.2 hkeep
    rw [hred]
    constructor
    · exact walk_entry_kept now e hk _ _ _ he
    · intro p hp
      refine walk_parent_kept now e.node.nid p _ _ _ hp ?_
      intro e2 he2 hlt hnid
      exact absurd (hall e2 he2 hnid) (Nat.not_le.2 hlt)
  · intro hdel
    rw [hred]
    refine ⟨?_, ?_, ?_⟩
    · intro hmem
      exact walk_kept_entries now _ _ _ e hmem hdel
    · intro p
      exact walk_parent_removed now e hdel _ _ _ he p
    · intro sels sel hcw hsel
      rw [hcw]
      exact walk_selector_removed now e sel hdel hsel _ _ sels he

/-- Witness for C7: the node queued at time 0 with a 500 ms delay is still
queued and attached on the tick at time 400; on the tick at time 501 the entry
is gone, the parent edge is gone, and selector 9 has been removed from the
collision world while selector 11 remains present. -/
theorem Claims.deletionQueueStrictDeadline_witness :
    (⟨deletionNode, 500⟩ : DeletionEntry) ∈
      (sceneWithDeletion.clearDeletionList false 400).1.DeletionList ∧
    (42, 0) ∈ (sceneWithDeletion.clearDeletionList false 400).1.ParentOf ∧
    (⟨deletionNode, 500⟩ : DeletionEntry) ∉
      (sceneWithDeletion.clearDeletionList false 501).1.DeletionList ∧
    (∀ p, (42, p) ∉ (sceneWithDeletion.clearDeletionList false 501).1.ParentOf) ∧
    (∃ sels2, (sceneWithDeletion.clearDeletionList false 501).1.CollisionWorld = some sels2 ∧
      9 ∉ sels2) ∧
    (sceneWithDeletion.clearDeletionList false 501).1.CollisionWorld = some [11] := by
  have h1 := Claims.deletionQueueStrictDeadline sceneWithDeletion ⟨deletionNode, 500⟩ 400
    (by with_unfolding_all decide)
  have h2 := Claims.deletionQueueStrictDeadline sceneWithDeletion ⟨deletionNode, 500⟩ 501
    (by with_unfolding_all decide)
  obtain ⟨hk, hkp⟩ := h1.1 (by with_unfolding_all decide) (by with_unfolding_all decide)
  obtain ⟨hd1, hd2, hd3⟩ := h2.2 (by with_unfolding_all decide)
  exact ⟨hk, hkp 0 (by with_unfolding_all decide), hd1, fun p => hd2 p,
    hd3 [9, 11] 9 (by with_unfolding_all rfl) rfl, by with_unfolding_all decide⟩

end CL3D
